import Mathlib

/-!
Verification development for the Guardian risk-scoring core.

The definitions below are a shallow embedding of the TypeScript sources
`src/server/src/services/risk-fusion.ts` and
`src/server/src/services/ml-analyzer.ts` together with the shared domain
types.  JavaScript numbers are modelled by `ℚ` wherever the source only
performs field arithmetic, and by `ℝ` for the Shannon-entropy value (the
only place a transcendental function occurs).  `Math.round` is modelled by
`jsRound` (round half towards positive infinity, which is the JavaScript
semantics).  Nullable inputs are modelled by `Option`.
-/

set_option maxRecDepth 16000

namespace Guardian

/-- JavaScript `Math.round`: rounds to the nearest integer, halves towards
positive infinity. -/
def jsRound (q : ℚ) : ℤ := Int.floor (q + 1/2)

/-- Model of `RiskTier` from the shared domain types (ordered severity buckets). -/
inductive RiskTier where
  | SAFE
  | SUSPICIOUS
  | HIGH_RISK
  | CONFIRMED_PHISHING
deriving DecidableEq, Repr

/-- Model of `AttackCategory` from the shared domain types (closed enumeration). -/
inductive AttackCategory where
  | NONE
  | PHISHING
  | CREDENTIAL_HARVESTING
  | URGENCY_MANIPULATION
  | AUTHORITY_IMPERSONATION
  | BRAND_IMPERSONATION
  | REWARD_BAITING
  | FEAR_COERCION
  | MALWARE_DISTRIBUTION
  | SOCIAL_ENGINEERING
  | UNKNOWN
deriving DecidableEq, Repr

/-- Model of `urgencyLevel` field of `LlmAnalysisResult`. -/
inductive UrgencyLevel where
  | NONE
  | LOW
  | MEDIUM
  | HIGH
deriving DecidableEq, Repr

/-- Model of `VirusTotalResult` from the shared domain types. -/
structure VirusTotalResult where
  positives : ℕ
  total : ℕ
  scanDate : String
  permalink : String
  detectedEngines : List String
deriving DecidableEq, Repr

/-- Model of `SafeBrowsingResult` from the shared domain types. -/
structure SafeBrowsingResult where
  isMalicious : Bool
  threatTypes : List String
  platformTypes : List String
deriving DecidableEq, Repr

/-- Model of `WhoisResult` from the shared domain types (`string | null` fields are
`Option String`, `ageInDays : number | null` is `Option ℤ`). -/
structure WhoisResult where
  domainName : String
  registrar : String
  createdDate : Option String
  updatedDate : Option String
  expiresDate : Option String
  ageInDays : Option ℤ
  registrantCountry : Option String
  nameServers : List String
deriving DecidableEq, Repr

/-- Model of `GeoIpResult` from the shared domain types. -/
structure GeoIpResult where
  ip : String
  country : String
  countryCode : String
  city : String
  org : String
  asn : String
  latitude : ℚ
  longitude : ℚ
  isTor : Bool
  isProxy : Bool
  isHosting : Bool
deriving DecidableEq, Repr

/-- Model of `ThreatIntelResult` from the shared domain types; the optional (`?:`)
components are `Option`s. -/
structure ThreatIntelResult where
  virusTotal : Option VirusTotalResult
  safeBrowsing : Option SafeBrowsingResult
  whois : Option WhoisResult
  geoIp : Option GeoIpResult
  knownMalicious : Bool
  reputationScore : ℚ
  sources : List String
  processingMs : ℕ
deriving DecidableEq, Repr

/-- Model of `LlmAnalysisResult` from the shared domain types. -/
structure LlmAnalysisResult where
  semanticRiskScore : ℚ
  attackCategory : AttackCategory
  confidence : ℚ
  reasoning : String
  indicators : List String
  urgencyLevel : UrgencyLevel
  brandsMentioned : List String
  credentialHarvestingDetected : Bool
  processingMs : ℕ
  modelUsed : String
deriving DecidableEq, Repr

/-- Model of `UrlFeatures` from the shared domain types.  All counts are `ℕ`, the two
ratios and the two similarity scores are `ℚ`, and the entropy is the real
Shannon entropy of the full input string. -/
structure UrlFeatures where
  url : String
  length : ℕ
  entropy : ℝ
  dotCount : ℕ
  dashCount : ℕ
  underscoreCount : ℕ
  atSymbolCount : ℕ
  slashCount : ℕ
  queryParamCount : ℕ
  fragmentCount : ℕ
  subdomainDepth : ℕ
  pathDepth : ℕ
  hasIpAddress : Bool
  hasHttps : Bool
  hasSuspiciousTld : Bool
  hasSuspiciousKeywords : Bool
  hasEncodedChars : Bool
  hasDataUri : Bool
  hasPortInUrl : Bool
  tld : String
  domain : String
  subdomain : String
  digitRatio : ℚ
  specialCharRatio : ℚ
  longestWordLength : ℕ
  homoglyphScore : ℚ
  brandSimilarityScore : ℚ

/-- Model of `MlAnalysisResult` from the shared domain types. -/
structure MlAnalysisResult where
  features : UrlFeatures
  riskScore : ℚ
  confidence : ℚ
  indicators : List String
  modelVersion : String
  processingMs : ℕ

/-- The `breakdown` record inside `RiskFusionResult`; the three per-source
scores are stored `Math.round`ed by the fusion function. -/
structure RiskBreakdown where
  mlScore : ℤ
  llmScore : ℤ
  threatIntelScore : ℤ
deriving DecidableEq, Repr

/-- Model of `RiskFusionResult` from the shared domain types.  `unifiedRiskScore` is
an integer because the fusion function rounds and clamps it. -/
structure RiskFusionResult where
  unifiedRiskScore : ℤ
  tier : RiskTier
  confidence : ℚ
  mlWeight : ℚ
  llmWeight : ℚ
  threatIntelWeight : ℚ
  breakdown : RiskBreakdown
  topIndicators : List String
  attackCategory : AttackCategory
  recommendation : String

/-! ### risk-fusion.ts -/

/-- Weight constant `W_ML` (risk-fusion.ts line 15). -/
def W_ML : ℚ := 0.35

/-- Weight constant `W_LLM` (risk-fusion.ts line 16). -/
def W_LLM : ℚ := 0.35

/-- Weight constant `W_THREAT_INTEL` (risk-fusion.ts line 17). -/
def W_THREAT_INTEL : ℚ := 0.30

/-- Model of `toTier` (risk-fusion.ts lines 20-25); the fusion function only applies
it to the final rounded, clamped integer score. -/
def toTier (score : ℤ) : RiskTier :=
  if score ≥ 80 then .CONFIRMED_PHISHING
  else if score ≥ 60 then .HIGH_RISK
  else if score ≥ 35 then .SUSPICIOUS
  else .SAFE

/-- The display string of an `AttackCategory` (its TypeScript string-enum
value). -/
def AttackCategory.label : AttackCategory → String
  | .NONE => "NONE"
  | .PHISHING => "PHISHING"
  | .CREDENTIAL_HARVESTING => "CREDENTIAL_HARVESTING"
  | .URGENCY_MANIPULATION => "URGENCY_MANIPULATION"
  | .AUTHORITY_IMPERSONATION => "AUTHORITY_IMPERSONATION"
  | .BRAND_IMPERSONATION => "BRAND_IMPERSONATION"
  | .REWARD_BAITING => "REWARD_BAITING"
  | .FEAR_COERCION => "FEAR_COERCION"
  | .MALWARE_DISTRIBUTION => "MALWARE_DISTRIBUTION"
  | .SOCIAL_ENGINEERING => "SOCIAL_ENGINEERING"
  | .UNKNOWN => "UNKNOWN"

/-- Model of `category.toLowerCase().replace(slash-underscore-g, ' ')` applied to the
enum string, as in `buildRecommendation`. -/
def AttackCategory.prose (c : AttackCategory) : String :=
  String.mk (c.label.data.map fun ch => if ch = '_' then ' ' else ch.toLower)

/-- Model of `buildRecommendation` (risk-fusion.ts lines 28-39). -/
def buildRecommendation (tier : RiskTier) (category : AttackCategory) : String :=
  match tier with
  | .CONFIRMED_PHISHING =>
      "BLOCK IMMEDIATELY. This " ++
      (if category ≠ .NONE then category.prose else "resource") ++
      " has been classified as a confirmed phishing attempt. Do not interact with this content and report it to your security team."
  | .HIGH_RISK =>
      "Exercise extreme caution. Multiple high-risk indicators detected. Avoid entering credentials or sensitive information. Report to your security team for further investigation."
  | .SUSPICIOUS =>
      "Proceed with caution. Several suspicious indicators were found. Verify the authenticity of this resource through official channels before interacting."
  | .SAFE =>
      "No significant threats detected. Standard security practices apply."

/-- Model of `ml?.riskScore ?? 0` (risk-fusion.ts line 48). -/
def mlScoreOf (ml : Option MlAnalysisResult) : ℚ :=
  (ml.map fun m => m.riskScore).getD 0

/-- Model of `llm?.semanticRiskScore ?? 0` (risk-fusion.ts line 49). -/
def llmScoreOf (llm : Option LlmAnalysisResult) : ℚ :=
  (llm.map fun l => l.semanticRiskScore).getD 0

/-- Model of `100 - (threatIntel?.reputationScore ?? 100)` (risk-fusion.ts
lines 52-53): the threat-intel reputation, inverted into a risk score. -/
def tiScoreOf (ti : Option ThreatIntelResult) : ℚ :=
  100 - (ti.map fun t => t.reputationScore).getD 100

/-- The accumulated `totalWeight` after the three presence checks
(risk-fusion.ts lines 56-61). -/
def totalWeightOf (ml : Option MlAnalysisResult) (llm : Option LlmAnalysisResult)
    (ti : Option ThreatIntelResult) : ℚ :=
  (if ml.isSome then W_ML else 0) +
  (if llm.isSome then W_LLM else 0) +
  (if ti.isSome then W_THREAT_INTEL else 0)

/-- The accumulated `weightedSum` after the three presence checks
(risk-fusion.ts lines 56-61). -/
def weightedSumOf (ml : Option MlAnalysisResult) (llm : Option LlmAnalysisResult)
    (ti : Option ThreatIntelResult) : ℚ :=
  (if ml.isSome then mlScoreOf ml * W_ML else 0) +
  (if llm.isSome then llmScoreOf llm * W_LLM else 0) +
  (if ti.isSome then tiScoreOf ti * W_THREAT_INTEL else 0)

/-- Model of `baseScore` (risk-fusion.ts line 64): the weighted average renormalised
over the present sources, `0` when no source is present. -/
def baseScoreOf (ml : Option MlAnalysisResult) (llm : Option LlmAnalysisResult)
    (ti : Option ThreatIntelResult) : ℚ :=
  if 0 < totalWeightOf ml llm ti then weightedSumOf ml llm ti / totalWeightOf ml llm ti
  else 0

/-- The three hard overrides (risk-fusion.ts lines 67-70) applied to the
base score, in source order. -/
def overriddenScoreOf (base : ℚ) (ti : Option ThreatIntelResult) : ℚ :=
  let s1 := if (ti.map fun t => t.knownMalicious).getD false then max base 90 else base
  let s2 := if ((ti.bind fun t => t.safeBrowsing).map fun sb => sb.isMalicious).getD false
            then max s1 85 else s1
  if 5 ≤ ((ti.bind fun t => t.virusTotal).map fun v => v.positives).getD 0
  then max s2 80 else s2

/-- Model of `unifiedRiskScore` after `Math.min(100, Math.round(...))`
(risk-fusion.ts line 72). -/
def unifiedScoreOf (ml : Option MlAnalysisResult) (llm : Option LlmAnalysisResult)
    (ti : Option ThreatIntelResult) : ℤ :=
  min 100 (jsRound (overriddenScoreOf (baseScoreOf ml llm ti) ti))

/-- The attack-category selection (risk-fusion.ts lines 77-79).  The
TypeScript truthiness test `llm?.attackCategory && ...` always succeeds for
a present result because every enum value is a non-empty string, so the
selection keeps the LLM category verbatim unless it is `UNKNOWN`. -/
def attackCategoryOf (llm : Option LlmAnalysisResult) : AttackCategory :=
  match llm with
  | some l => if l.attackCategory ≠ .UNKNOWN then l.attackCategory else .UNKNOWN
  | none => .UNKNOWN

/-- Model of `[...new Set(xs)]`: deduplication preserving first occurrences. -/
def dedupFirstAux : List String → List String → List String
  | [], _ => []
  | x :: xs, seen =>
      if x ∈ seen then dedupFirstAux xs seen else x :: dedupFirstAux xs (x :: seen)

/-- Model of `[...new Set(xs)]` (risk-fusion.ts line 95). -/
def dedupFirst (l : List String) : List String := dedupFirstAux l []

/-- The `allIndicators` aggregation (risk-fusion.ts lines 82-92). -/
def allIndicatorsOf (ml : Option MlAnalysisResult) (llm : Option LlmAnalysisResult)
    (ti : Option ThreatIntelResult) : List String :=
  ((ml.map fun m => m.indicators).getD []) ++
  ((llm.map fun l => l.indicators).getD []) ++
  (if ((ti.bind fun t => t.safeBrowsing).map fun sb => sb.isMalicious).getD false
   then ["Listed in Google Safe Browsing"] else []) ++
  (match ti.bind fun t => t.virusTotal with
   | some vt =>
       if 0 < vt.positives
       then ["VirusTotal: " ++ toString vt.positives ++ "/" ++ toString vt.total ++
             " engines flagged"]
       else []
   | none => []) ++
  (match (ti.bind fun t => t.whois).bind fun w => w.ageInDays with
   | some d =>
       if d < 30
       then ["Newly registered domain (" ++ toString d ++ " days old)"]
       else []
   | none => [])

/-- The `confidences` list (risk-fusion.ts lines 98-101). -/
def confidencesOf (ml : Option MlAnalysisResult) (llm : Option LlmAnalysisResult)
    (ti : Option ThreatIntelResult) : List ℚ :=
  ((ml.map fun m => [m.confidence]).getD []) ++
  ((llm.map fun l => [l.confidence]).getD []) ++
  ((ti.map fun t => [if 0 < t.sources.length then (0.9 : ℚ) else 0.5]).getD [])

/-- The averaged, 2-decimal-rounded confidence (risk-fusion.ts
lines 102-104 and 109). -/
def fusedConfidenceOf (ml : Option MlAnalysisResult) (llm : Option LlmAnalysisResult)
    (ti : Option ThreatIntelResult) : ℚ :=
  let cs := confidencesOf ml llm ti
  let avg : ℚ := if cs.length ≠ 0 then cs.sum / cs.length else 0.5
  jsRound (avg * 100) / 100

/-- Model of `fuseRiskScores` (risk-fusion.ts lines 43-122). -/
def fuseRiskScores (ml : Option MlAnalysisResult) (llm : Option LlmAnalysisResult)
    (ti : Option ThreatIntelResult) : RiskFusionResult :=
  let unified := unifiedScoreOf ml llm ti
  let tier := toTier unified
  let category := attackCategoryOf llm
  { unifiedRiskScore := unified
    tier := tier
    confidence := fusedConfidenceOf ml llm ti
    mlWeight := W_ML
    llmWeight := W_LLM
    threatIntelWeight := W_THREAT_INTEL
    breakdown :=
      { mlScore := jsRound (mlScoreOf ml)
        llmScore := jsRound (llmScoreOf llm)
        threatIntelScore := jsRound (tiScoreOf ti) }
    topIndicators := (dedupFirst (allIndicatorsOf ml llm ti)).take 10
    attackCategory := category
    recommendation := buildRecommendation tier category }

/-! ### ml-analyzer.ts: string helpers -/

/-- Model of `toLowerCase()` (ASCII, which covers every character the analyser's
tables and the claims use). -/
def toLowerStr (s : String) : String := String.mk (s.data.map Char.toLower)

/-- Model of `split(sep)` for a single-character separator, on character lists.
Mirrors the JavaScript semantics: splitting the empty string yields one
empty field, and separators at the ends yield empty fields. -/
def splitChar (sep : Char) : List Char → List (List Char)
  | [] => [[]]
  | c :: cs =>
      match splitChar sep cs with
      | [] => [[]]
      | w :: ws => if c = sep then [] :: w :: ws else (c :: w) :: ws

/-- Model of `split(sep)` on strings (single-character separator). -/
def splitOnChar (sep : Char) (s : String) : List String :=
  (splitChar sep s.data).map String.mk

/-- Model of `join(sep)`. -/
def joinSep (sep : String) : List String → String
  | [] => ""
  | [x] => x
  | x :: xs => x ++ sep ++ joinSep sep xs

/-- Model of `join(sep)` on character lists (used to reason about `joinSep`). -/
def joinChar (sep : Char) : List (List Char) → List Char
  | [] => []
  | [w] => w
  | w :: ws => w ++ sep :: joinChar sep ws

/-- One row update of the Levenshtein dynamic program (ml-analyzer.ts
lines 68-74): walks the previous row (`diag :: rest`), carrying the value
just computed to the left. -/
def levRowAux (x : Char) : List Char → List ℕ → ℕ → List ℕ
  | y :: ys, diag :: rest, left =>
      let up := rest.headD 0
      let cur := if x = y then diag else 1 + min (min up left) diag
      cur :: levRowAux x ys rest cur
  | _, _, _ => []

/-- Model of `levenshtein` (ml-analyzer.ts lines 63-76): the standard edit-distance
dynamic program, row by row; row `0` is `0, 1, …, n` and each row starts
with its index. -/
def levenshtein (a b : String) : ℕ :=
  let bs := b.data
  let init := List.range (bs.length + 1)
  let finalRow := a.data.foldl
    (fun prev x =>
      let h := prev.headD 0 + 1
      h :: levRowAux x bs prev h) init
  finalRow.getLastD 0

/-- Model of `HOMOGLYPH_MAP` (ml-analyzer.ts lines 36-45), in object-entry order. -/
def HOMOGLYPH_MAP : List (Char × List Char) :=
  [('a', ['@', '4', 'α', 'ɑ']),
   ('e', ['3', 'ε']),
   ('i', ['1', 'l', '!', 'ι']),
   ('o', ['0', 'ο', 'σ']),
   ('s', ['5', '$', 'ς']),
   ('t', ['7', '+']),
   ('l', ['1', 'I']),
   ('g', ['9', 'q'])]

/-- Model of `homoglyphNormalise` (ml-analyzer.ts lines 80-88): lower-case, then for
each map entry replace every occurrence of each substitute character by the
canonical letter, in table order.  Each substitute is a single character,
so `replaceAll` is a pointwise map. -/
def homoglyphNormalise (str : String) : String :=
  HOMOGLYPH_MAP.foldl
    (fun out p =>
      p.2.foldl
        (fun out sub => String.mk (out.data.map fun c => if c = sub then p.1 else c))
        out)
    (toLowerStr str)

/-- Model of `SUSPICIOUS_TLDS` (ml-analyzer.ts lines 12-17). -/
def SUSPICIOUS_TLDS : List String :=
  ["tk", "ml", "ga", "cf", "gq", "pw", "cc", "xyz", "top", "club",
   "online", "site", "website", "store", "tech", "info", "biz",
   "work", "rest", "kim", "country", "stream", "download", "racing",
   "review", "trade", "accountant", "science", "date", "faith", "loan"]

/-- Model of `SUSPICIOUS_KEYWORDS` (ml-analyzer.ts lines 19-26). -/
def SUSPICIOUS_KEYWORDS : List String :=
  ["login", "signin", "sign-in", "account", "verify", "verification",
   "secure", "security", "update", "confirm", "password", "credential",
   "banking", "paypal", "amazon", "apple", "microsoft", "google",
   "netflix", "facebook", "instagram", "invoice", "payment", "reset",
   "support", "helpdesk", "customer", "service", "wallet", "crypto",
   "prize", "winner", "lucky", "free", "gift", "claim", "reward"]

/-- Model of `WELL_KNOWN_BRANDS` (ml-analyzer.ts lines 28-33). -/
def WELL_KNOWN_BRANDS : List String :=
  ["paypal", "amazon", "apple", "microsoft", "google", "facebook",
   "instagram", "netflix", "linkedin", "twitter", "x", "dropbox",
   "github", "gmail", "outlook", "yahoo", "bankofamerica", "chase",
   "wellsfargo", "citibank", "barclays", "hsbc", "dhl", "fedex", "ups"]

/-- JavaScript `hay.includes(needle)`: substring test, on character
lists. -/
def isSubstring (needle : List Char) : List Char → Bool
  | [] => needle.isEmpty
  | c :: rest => needle.isPrefixOf (c :: rest) || isSubstring needle rest

/-- Hexadecimal digit (the character class `[0-9a-fA-F]`). -/
def isHexChar (c : Char) : Bool :=
  c.isDigit || (97 ≤ c.toNat && c.toNat ≤ 102) || (65 ≤ c.toNat && c.toNat ≤ 70)

/-- The number of non-overlapping matches of the regex `%[0-9a-fA-F]{2}`
scanning left to right (ml-analyzer.ts line 146). -/
def countPercentTriplets : List Char → ℕ
  | '%' :: a :: b :: rest =>
      if isHexChar a && isHexChar b then 1 + countPercentTriplets rest
      else countPercentTriplets (a :: b :: rest)
  | _ :: rest => countPercentTriplets rest
  | [] => 0

/-- The dotted-quad test of ml-analyzer.ts line 135: the hostname matches
the anchored regex of one to three digits, four groups separated by dots. -/
def isIpv4Like (host : String) : Bool :=
  let parts := splitChar '.' host.data
  (parts.length == 4) &&
    parts.all fun p => (!p.isEmpty) && (p.length ≤ 3 : Bool) && p.all (·.isDigit)

/-- The IPv6-literal test of ml-analyzer.ts line 136: an optional opening
bracket, one or more characters from `[0-9a-fA-F:]`, an optional closing
bracket. -/
def isIpv6Like (host : String) : Bool :=
  let cs := host.data
  let cs1 := match cs with
    | '[' :: rest => rest
    | _ => cs
  let cs2 := if cs1.getLast? = some ']' then cs1.dropLast else cs1
  (!cs2.isEmpty) && cs2.all fun c => isHexChar c || c == ':'

/-! ### A model of the WHATWG `new URL` constructor

The analyser calls the JavaScript platform's `new URL(...)`; that parser is
not part of the repository, so it is modelled here for the
`scheme://[userinfo@]host[:port][/path][?query][#fragment]` shape.  Inputs
outside that shape (no `://`, a forbidden character such as a space in the
host, a non-numeric port, or an empty host under a special scheme) make
the constructor throw, which the model renders as `none`.  An empty host
is accepted for non-special schemes, as in the platform
(`new URL("httpx://")` succeeds with an empty hostname).  Host characters are checked against the
WHATWG forbidden-host-code-point list; the hostname and scheme are
lower-cased; a default port (`80` for `http:`, `443` for `https:`) is
dropped; an absent path becomes `/`; an empty query or fragment becomes
the empty string. -/

/-- Result of a successful `new URL(...)`, with exactly the accessor fields
the analyser reads. -/
structure ParsedUrl where
  protocol : String
  hostname : String
  port : String
  pathname : String
  search : String
  hash : String
deriving DecidableEq, Repr

/-- Scheme characters after the first (letters, digits, `+`, `-`, `.`). -/
def isSchemeChar (c : Char) : Bool :=
  c.isAlpha || c.isDigit || c == '+' || c == '-' || c == '.'

/-- WHATWG special schemes whose URLs must have a non-empty host (every
special scheme except file); for all other schemes the platform URL
constructor accepts an empty host. -/
def HOST_REQUIRED_SCHEMES : List String := ["ftp", "http", "https", "ws", "wss"]

/-- WHATWG forbidden host code points (the ones expressible in a
non-bracketed host). -/
def forbiddenHostChar (c : Char) : Bool :=
  c == ' ' || c == '\t' || c == '\n' || c == '\r' || c == '#' || c == '/' ||
  c == ':' || c == '?' || c == '@' || c == '[' || c == ']' || c == '\\' ||
  c == '^' || c == '|' || c == '<' || c == '>'

/-- Everything after the last `@` (the authority with userinfo removed). -/
def afterLastAt (l : List Char) : List Char :=
  (l.reverse.takeWhile (· != '@')).reverse

/-- The fragment accessor: `""` for an absent or empty fragment, otherwise
`#` followed by the fragment. -/
def hashOf : List Char → String
  | '#' :: f => if f.isEmpty then "" else String.mk ('#' :: f)
  | _ => ""

/-- Splits `host[:port]`, handling a bracketed IPv6 host; `none` when a
bracket is unclosed or junk follows the closing bracket. -/
def splitHostPort (hostport : List Char) : Option (List Char × List Char) :=
  match hostport with
  | '[' :: rest =>
      let inner := rest.takeWhile (· != ']')
      match rest.dropWhile (· != ']') with
      | ']' :: restp =>
          if inner.isEmpty || !inner.all (fun c => isHexChar c || c == ':') then none
          else match restp with
            | [] => some ('[' :: inner ++ [']'], [])
            | ':' :: p => some ('[' :: inner ++ [']'], p)
            | _ => none
      | _ => none
  | _ =>
      let host := hostport.takeWhile (· != ':')
      match hostport.dropWhile (· != ':') with
      | ':' :: p => some (host, p)
      | _ => some (host, [])

/-- Model of `new URL(s)`; see the section comment above. -/
def parseUrl (s : String) : Option ParsedUrl :=
  let cs := s.data
  let scheme := cs.takeWhile (· != ':')
  let rest := cs.dropWhile (· != ':')
  if scheme.isEmpty then none
  else if !(scheme.headD ' ').isAlpha then none
  else if !scheme.all isSchemeChar then none
  else
    match rest with
    | ':' :: '/' :: '/' :: rest2 =>
        let isAuthChar : Char → Bool := fun c => c != '/' && c != '?' && c != '#'
        let auth := rest2.takeWhile isAuthChar
        let after := rest2.dropWhile isAuthChar
        let hostport := afterLastAt auth
        match splitHostPort hostport with
        | none => none
        | some (host, portDigits) =>
            if host.isEmpty &&
                HOST_REQUIRED_SCHEMES.contains (String.mk (scheme.map Char.toLower)) then none
            else if (hostport.headD ' ' != '[') && host.any forbiddenHostChar then none
            else if !portDigits.all (·.isDigit) then none
            else
              let protocol := String.mk (scheme.map Char.toLower) ++ ":"
              let portStr := String.mk portDigits
              let port :=
                if (protocol == "http:" && portStr == "80") ||
                   (protocol == "https:" && portStr == "443") then "" else portStr
              let path := after.takeWhile fun c => c != '?' && c != '#'
              let rest3 := after.dropWhile fun c => c != '?' && c != '#'
              let pathname := if path.isEmpty then "/" else String.mk path
              let search :=
                match rest3 with
                | '?' :: qs =>
                    let q := qs.takeWhile (· != '#')
                    if q.isEmpty then "" else String.mk ('?' :: q)
                | _ => ""
              let frag :=
                match rest3 with
                | '?' :: qs => hashOf (qs.dropWhile (· != '#'))
                | _ => hashOf rest3
              some { protocol := protocol
                     hostname := String.mk (host.map Char.toLower)
                     port := port
                     pathname := pathname
                     search := search
                     hash := frag }
    | _ => none

/-- Model of `[...parsed.searchParams.keys()].length`: the `&`-separated non-empty
segments of the query string. -/
def countParams (search : String) : ℕ :=
  if search = "" then 0
  else ((splitChar '&' (search.data.drop 1)).filter (· ≠ [])).length

/-! ### ml-analyzer.ts: entropy, feature extraction and scoring -/

/-- Model of the JavaScript `str.length`: the number of UTF-16 code units
of the string (an astral code point, at or above U+10000, takes two
units). -/
def utf16Length (s : String) : ℕ :=
  (s.data.map fun c => if c.toNat < 65536 then 1 else 2).sum

/-- Model of `shannonEntropy` (ml-analyzer.ts lines 49-59): Shannon entropy over the
unigram character frequencies of the string, `0` for the empty string.
The `for...of` loop counts code points while the divisor `str.length`
counts UTF-16 code units; the two differ on astral characters. -/
noncomputable def shannonEntropy (s : String) : ℝ :=
  if utf16Length s = 0 then 0
  else
    (s.data.dedup.map fun c =>
      let p : ℝ := (s.data.count c : ℝ) / (utf16Length s : ℝ); -(p * Real.logb 2 p)).sum

/-- Model of `1 - dist / max(len, len)`: similarity of the normalised label to one
brand (ml-analyzer.ts lines 159-160). -/
def brandSim (normal brand : String) : ℚ :=
  1 - (levenshtein normal brand : ℚ) / (max normal.length brand.length : ℚ)

/-- One iteration of the brand loop (ml-analyzer.ts lines 158-166); the
state is `(brandSimilarityScore, homoglyphScore)`. -/
def brandStep (normal firstLabel : String) (st : ℚ × ℚ) (brand : String) : ℚ × ℚ :=
  let sim := brandSim normal brand
  let b := if st.1 < sim then sim else st.1
  let h := if firstLabel ≠ normal ∧ 0.8 < sim then max st.2 sim else st.2
  (b, h)

/-- The brand loop of ml-analyzer.ts lines 156-166, folded over
`WELL_KNOWN_BRANDS`. -/
def brandScan (normal firstLabel : String) : ℚ × ℚ :=
  WELL_KNOWN_BRANDS.foldl (brandStep normal firstLabel) (0, 0)

/-- Model of `buildFallbackFeatures` (ml-analyzer.ts lines 199-229): the worst-case
record returned when the URL does not parse. -/
noncomputable def buildFallbackFeatures (rawUrl : String) : UrlFeatures :=
  { url := rawUrl
    length := rawUrl.length
    entropy := shannonEntropy rawUrl
    dotCount := rawUrl.data.count '.'
    dashCount := rawUrl.data.count '-'
    underscoreCount := rawUrl.data.count '_'
    atSymbolCount := rawUrl.data.count '@'
    slashCount := rawUrl.data.count '/'
    queryParamCount := 0
    fragmentCount := 0
    subdomainDepth := 0
    pathDepth := 0
    hasIpAddress := false
    hasHttps := false
    hasSuspiciousTld := false
    hasSuspiciousKeywords := false
    hasEncodedChars := false
    hasDataUri := false
    hasPortInUrl := false
    tld := ""
    domain := rawUrl
    subdomain := ""
    digitRatio := 0
    specialCharRatio := 0
    longestWordLength := 0
    homoglyphScore := 0
    brandSimilarityScore := 0 }

/-- Model of `extractUrlFeatures` (ml-analyzer.ts lines 92-197). -/
noncomputable def extractUrlFeatures (rawUrl : String) : UrlFeatures :=
  let candidate := if "http".data.isPrefixOf rawUrl.data then rawUrl
                   else "http://" ++ rawUrl
  match parseUrl candidate with
  | none => buildFallbackFeatures rawUrl
  | some parsed =>
      let full := rawUrl
      let hostname := toLowerStr parsed.hostname
      let pathname := parsed.pathname
      let fragment := parsed.hash
      let parts := splitOnChar '.' hostname
      let tld := parts.getLastD ""
      let domain := joinSep "." (parts.drop (parts.length - 2))
      let subdomain := joinSep "." (parts.take (parts.length - 2))
      let subdomainDepth := if subdomain ≠ "" then (splitOnChar '.' subdomain).length else 0
      let pathDepth := ((splitOnChar '/' pathname).filter (fun p => p ≠ "")).length
      let digits := full.data.countP (fun c => c.isDigit)
      let specials := full.data.countP
        (fun c => !(c.isAlphanum || c == '/' || c == ':' || c == '.' || c == '-'))
      let domainWords :=
        (splitChar ' ' (domain.data.map fun c =>
          if c == '-' || c == '_' || c == '.' then ' ' else c)).filter (· ≠ [])
      let lowerUrl := toLowerStr full
      let firstLabel := (splitOnChar '.' domain).headD ""
      let normalDomain := homoglyphNormalise firstLabel
      let scan := brandScan normalDomain firstLabel
      { url := rawUrl
        length := full.length
        entropy := shannonEntropy full
        dotCount := full.data.count '.'
        dashCount := full.data.count '-'
        underscoreCount := full.data.count '_'
        atSymbolCount := full.data.count '@'
        slashCount := full.data.count '/'
        queryParamCount := countParams parsed.search
        fragmentCount := if fragment ≠ "" then 1 else 0
        subdomainDepth := subdomainDepth
        pathDepth := pathDepth
        hasIpAddress := isIpv4Like hostname || isIpv6Like hostname
        hasHttps := parsed.protocol == "https:"
        hasSuspiciousTld := SUSPICIOUS_TLDS.contains (toLowerStr tld)
        hasSuspiciousKeywords := SUSPICIOUS_KEYWORDS.any fun kw =>
          isSubstring kw.data lowerUrl.data
        hasEncodedChars := 3 < countPercentTriplets full.data
        hasDataUri := "data:".data.isPrefixOf lowerUrl.data
        hasPortInUrl := parsed.port ≠ "" && !(["80", "443"].contains parsed.port)
        tld := tld
        domain := domain
        subdomain := subdomain
        digitRatio := (digits : ℚ) / (full.length : ℚ)
        specialCharRatio := (specials : ℚ) / (full.length : ℚ)
        longestWordLength := domainWords.foldl (fun m w => max m w.length) 0
        homoglyphScore := scan.2
        brandSimilarityScore := scan.1 }

/-- Model of `ScoredIndicator` (ml-analyzer.ts line 233). -/
structure ScoredIndicator where
  score : ℚ
  label : String
deriving DecidableEq, Repr

/-- Model of `!f.domain.includes(WELL_KNOWN_BRANDS.find(...) ?? '___')`: the guard of
the brand-similarity rule (ml-analyzer.ts line 255). -/
def brandNotContained (f : UrlFeatures) : Bool :=
  let found := (WELL_KNOWN_BRANDS.find? fun b => isSubstring b.data f.domain.data).getD "___"
  !(isSubstring found.data f.domain.data)

/-- Model of `scoreFeatures` (ml-analyzer.ts lines 235-261): the fixed, ordered rule
table; each chunk is the conditional `push` of one rule. -/
noncomputable def scoreFeatures (f : UrlFeatures) : List ScoredIndicator :=
  (if f.hasIpAddress then [⟨20, "IP-based domain detected"⟩] else []) ++
  (if !f.hasHttps then [⟨12, "Non-HTTPS connection"⟩] else []) ++
  (if f.hasSuspiciousTld then [⟨15, "Suspicious TLD (." ++ f.tld ++ ")"⟩] else []) ++
  (if f.hasSuspiciousKeywords then [⟨14, "Suspicious keywords in URL"⟩] else []) ++
  (if f.hasEncodedChars then [⟨8, "Excessive percent-encoding"⟩] else []) ++
  (if f.hasDataUri then [⟨25, "Data URI scheme detected"⟩] else []) ++
  (if f.hasPortInUrl then [⟨10, "Non-standard port in URL"⟩] else []) ++
  (if 0 < f.atSymbolCount then [⟨20, "At-sign (@) in URL"⟩] else []) ++
  (if 4 ≤ f.subdomainDepth then [⟨15, "Excessive subdomain depth"⟩]
   else if 2 ≤ f.subdomainDepth then [⟨6, "Multiple subdomains"⟩] else []) ++
  (if 100 < f.length then [⟨8, "Unusually long URL"⟩] else []) ++
  (if 4.5 < f.entropy then [⟨10, "High URL entropy (randomised)"⟩] else []) ++
  (if 0.3 < f.digitRatio then [⟨8, "High digit ratio in URL"⟩] else []) ++
  (if 4 < f.dashCount then [⟨6, "Excessive dashes in domain"⟩] else []) ++
  (if 6 < f.dotCount then [⟨6, "Excessive dots in URL"⟩] else []) ++
  (if 5 < f.queryParamCount then [⟨5, "Many query parameters"⟩] else []) ++
  (if 0.8 < f.homoglyphScore then [⟨22, "Homoglyph brand impersonation detected"⟩]
   else if 0.85 < f.brandSimilarityScore ∧ brandNotContained f
   then [⟨18, "Brand name similarity in domain"⟩] else []) ++
  (if 6 < f.pathDepth then [⟨4, "Deep URL path structure"⟩] else [])

/-- Model of `analyseUrl` (ml-analyzer.ts lines 265-291), with the logging and the
wall-clock `processingMs` (modelled as `0`) stripped. -/
noncomputable def analyseUrl (url : String) : MlAnalysisResult :=
  let features := extractUrlFeatures url
  let scored := scoreFeatures features
  let rawSum := (scored.map fun i => i.score).sum
  { features := features
    riskScore := min 100 rawSum
    confidence := min 0.98 (0.5 + (scored.length : ℚ) * 0.06)
    indicators := scored.map fun i => i.label
    modelVersion := "1.0.0"
    processingMs := 0 }

/-- Spec-side formulation of step 2 (for the refinement comparison): the
list of (weight, score) pairs of the present sources. -/
def specPresentSources (ml : Option MlAnalysisResult) (llm : Option LlmAnalysisResult)
    (ti : Option ThreatIntelResult) : List (ℚ × ℚ) :=
  (match ml with | some m => [(W_ML, m.riskScore)] | none => []) ++
  (match llm with | some l => [(W_LLM, l.semanticRiskScore)] | none => []) ++
  (match ti with | some t => [(W_THREAT_INTEL, 100 - t.reputationScore)] | none => [])

/-- Spec-side formulation of the renormalised base score: weighted sum over
present sources divided by the total weight of present sources, `0` when no
source is present. -/
def specBaseScore (ml : Option MlAnalysisResult) (llm : Option LlmAnalysisResult)
    (ti : Option ThreatIntelResult) : ℚ :=
  let src := specPresentSources ml llm ti
  if src = [] then 0
  else (src.map fun p => p.1 * p.2).sum / (src.map fun p => p.1).sum

/-- An ML result with risk score 80 (spec example `ml={riskScore:80}`). -/
noncomputable def mlExample80 : MlAnalysisResult :=
  { features := buildFallbackFeatures ""
    riskScore := 80
    confidence := 0.9
    indicators := []
    modelVersion := "1.0.0"
    processingMs := 0 }

/-- The threat-intel input of the spec example
`{knownMalicious:true, reputationScore:100, sources:[]}`. -/
def tiExampleMalicious : ThreatIntelResult :=
  { virusTotal := none
    safeBrowsing := none
    whois := none
    geoIp := none
    knownMalicious := true
    reputationScore := 100
    sources := []
    processingMs := 0 }

/-- An LLM result whose attack category is `NONE`. -/
def llmExampleNone : LlmAnalysisResult :=
  { semanticRiskScore := 0
    attackCategory := .NONE
    confidence := 0.9
    reasoning := ""
    indicators := []
    urgencyLevel := .NONE
    brandsMentioned := []
    credentialHarvestingDetected := false
    processingMs := 0
    modelUsed := "m" }

/-! ### Concrete URLs used by the testable properties -/

/-- The URL of the spec homoglyph example. -/
def specHomoglyphUrl : String := "https://paypa1-secure.tk/login"

/-- A corrected homoglyph example URL (same-shaped domain without the
similarity-destroying `-secure` suffix, over plain HTTP). -/
def fixedHomoglyphUrl : String := "http://paypa1.tk/login"

/-- A crafted URL that fires enough scoring rules for the raw sum to exceed
100. -/
def cappedUrl : String :=
  "http://login.a.b.c.d.paypa1.tk:8080/a/b/c/d/e/f/%41%42%43%44?a=1111&b=2222&c=3333&d=4444&e=5555&f=6666"

/-! ### Helper lemmas -/

theorem sum_negMulLog_le_log_card (T : Finset Char) (p : Char → ℝ)
    (hpos : ∀ c ∈ T, 0 < p c) (hsum : ∑ c in T, p c = 1) :
    ∑ c in T, -(p c * Real.log (p c)) ≤ Real.log T.card := by
  have hT : T.Nonempty := by
    rcases Finset.eq_empty_or_nonempty T with h | h
    · exfalso; rw [h] at hsum; simp at hsum
    · exact h
  have hk : (0:ℝ) < (T.card : ℝ) := by exact_mod_cast Finset.card_pos.mpr hT
  have key : ∀ c ∈ T, -(p c * Real.log (p c)) ≤ 1 / T.card - p c + p c * Real.log T.card := by
    intro c hc
    have hp := hpos c hc
    have hx : (0:ℝ) < 1 / (p c * T.card) := by positivity
    have hlog := Real.log_le_sub_one_of_pos hx
    have hrw : Real.log (1 / (p c * (T.card : ℝ))) = -(Real.log (p c) + Real.log T.card) := by
      rw [one_div, Real.log_inv, Real.log_mul (ne_of_gt hp) (ne_of_gt hk)]
    rw [hrw] at hlog
    have hmul := mul_le_mul_of_nonneg_left hlog (le_of_lt hp)
    have hsimp : p c * (1 / (p c * (T.card : ℝ)) - 1) = 1 / T.card - p c := by
      field_simp
      ring
    have hexp : p c * -(Real.log (p c) + Real.log T.card) =
        -(p c * Real.log (p c)) - p c * Real.log T.card := by ring
    rw [hexp, hsimp] at hmul
    linarith
  calc ∑ c in T, -(p c * Real.log (p c))
      ≤ ∑ c in T, (1 / (T.card : ℝ) - p c + p c * Real.log T.card) := Finset.sum_le_sum key
    _ = (T.card : ℝ) * (1 / T.card) - 1 + Real.log T.card := by
        rw [Finset.sum_add_distrib, Finset.sum_sub_distrib, Finset.sum_const, ← Finset.sum_mul,
          hsum, nsmul_eq_mul]
        ring
    _ = Real.log T.card := by field_simp

theorem length_le_utf16Length (s : String) : s.data.length ≤ utf16Length s := by
  rw [utf16Length]
  have h : ∀ l : List Char,
      l.length ≤ (l.map fun c => if c.toNat < 65536 then 1 else 2).sum := by
    intro l
    induction l with
    | nil => simp
    | cons c cs ih =>
        simp only [List.map_cons, List.sum_cons, List.length_cons]
        split_ifs <;> omega
  exact h s.data

theorem utf16Length_eq_zero_iff (s : String) : utf16Length s = 0 ↔ s.data = [] := by
  constructor
  · intro h
    have h1 := length_le_utf16Length s
    exact List.length_eq_zero.mp (by omega)
  · intro h
    rw [utf16Length, h]
    rfl

theorem utf16Length_eq_length (s : String) (hbmp : ∀ c ∈ s.data, c.toNat < 65536) :
    utf16Length s = s.data.length := by
  rw [utf16Length]
  have hmap : (s.data.map fun c => if c.toNat < 65536 then 1 else 2) =
      s.data.map fun _ => 1 :=
    List.map_congr_left fun c hc => by rw [if_pos (hbmp c hc)]
  rw [hmap, List.map_const']
  simp

theorem shannonEntropy_nonneg (s : String) : 0 ≤ shannonEntropy s := by
  rw [shannonEntropy]
  split
  · exact le_refl 0
  · apply List.sum_nonneg
    intro x hx
    obtain ⟨c, hc, hcx⟩ := List.mem_map.mp hx
    subst hcx
    have hmem : c ∈ s.data := List.mem_dedup.mp hc
    have hcount : 0 < s.data.count c := List.count_pos_iff.mpr hmem
    have hlen : 0 < utf16Length s := by
      have h1 := List.length_pos_of_mem hmem
      have h2 := length_le_utf16Length s
      omega
    have hp0 : (0:ℝ) < (s.data.count c : ℝ) / (utf16Length s : ℝ) := by positivity
    have hp1 : (s.data.count c : ℝ) / (utf16Length s : ℝ) ≤ 1 := by
      rw [div_le_one (by positivity)]
      have hd := List.count_le_length c s.data
      have hu := length_le_utf16Length s
      exact_mod_cast le_trans hd hu
    have hle := Real.logb_nonpos (b := 2) (by norm_num) (le_of_lt hp0) hp1
    show 0 ≤ -(((s.data.count c : ℝ) / (utf16Length s : ℝ)) *
      Real.logb 2 ((s.data.count c : ℝ) / (utf16Length s : ℝ)))
    exact neg_nonneg.mpr (mul_nonpos_of_nonneg_of_nonpos hp0.le hle)

theorem shannonEntropy_le_logb (s : String) (hbmp : ∀ c ∈ s.data, c.toNat < 65536) :
    shannonEntropy s ≤ Real.logb 2 (s.data.dedup.length) := by
  have hLs : utf16Length s = s.data.length := utf16Length_eq_length s hbmp
  rcases Nat.eq_zero_or_pos (utf16Length s) with h0 | hpos
  · have hdata : s.data = [] := (utf16Length_eq_zero_iff s).mp h0
    rw [shannonEntropy, if_pos h0, hdata]
    simp [Real.logb]
  · have hne : ¬ utf16Length s = 0 := by omega
    have hdne : s.data.length ≠ 0 := by omega
    rw [shannonEntropy, if_neg hne]
    simp only [hLs]
    have hnodup := List.nodup_dedup s.data
    rw [← List.sum_toFinset _ hnodup]
    have hTF : s.data.dedup.toFinset = s.data.toFinset := by
      ext a; simp [List.mem_toFinset, List.mem_dedup]
    rw [hTF]
    have hterm : ∀ c ∈ s.data.toFinset,
        (let p : ℝ := (s.data.count c : ℝ) / (s.data.length : ℝ); -(p * Real.logb 2 p)) =
        (-(((s.data.count c : ℝ) / (s.data.length : ℝ)) *
           Real.log ((s.data.count c : ℝ) / (s.data.length : ℝ)))) / Real.log 2 := by
      intro c _
      simp only [Real.logb]
      ring
    rw [Finset.sum_congr rfl hterm, ← Finset.sum_div]
    have hlog2 : (0:ℝ) < Real.log 2 := Real.log_pos (by norm_num)
    have hbound := sum_negMulLog_le_log_card (s.data.toFinset)
        (fun c => (s.data.count c : ℝ) / (s.data.length : ℝ))
        (by
          intro c hc
          have hmem : c ∈ s.data := List.mem_toFinset.mp hc
          have hcount : 0 < s.data.count c := List.count_pos_iff.mpr hmem
          positivity)
        (by
          rw [← Finset.sum_div]
          have hc : ∑ c in s.data.toFinset, (s.data.count c : ℝ) = (s.data.length : ℝ) := by
            push_cast [← List.sum_toFinset_count_eq_length s.data]
            rfl
          rw [hc, div_self (by exact_mod_cast hdne)])
    have hcard : (s.data.toFinset.card : ℝ) = (s.data.dedup.length : ℝ) := by
      exact_mod_cast congrArg Nat.cast (List.card_toFinset s.data)
    rw [Real.logb, div_le_div_iff_of_pos_right hlog2, ← hcard]
    exact hbound

theorem shannonEntropy_replicate (c : Char) (n : ℕ) (hc : c.toNat < 65536)
    (hn : 0 < n) : shannonEntropy (String.mk (List.replicate n c)) = 0 := by
  have hL : utf16Length (String.mk (List.replicate n c)) = n := by
    have heq := utf16Length_eq_length (String.mk (List.replicate n c))
      (by
        intro x hx
        rw [List.eq_of_mem_replicate hx]
        exact hc)
    rw [heq]
    show (List.replicate n c).length = n
    simp
  rw [shannonEntropy, if_neg (by omega)]
  show ((List.replicate n c).dedup.map _).sum = 0
  rw [List.replicate_dedup (by omega)]
  simp only [List.map_cons, List.map_nil, List.sum_cons, List.sum_nil, hL]
  simp [List.count_replicate, div_self (show (n:ℝ) ≠ 0 by exact_mod_cast (by omega : n ≠ 0))]

theorem shannonEntropy_empty : shannonEntropy "" = 0 := by
  rw [shannonEntropy, if_pos (show utf16Length "" = 0 from rfl)]

theorem jsRound_eval (q : ℚ) (z : ℤ) (h1 : (z : ℚ) ≤ q + 1/2) (h2 : q + 1/2 < z + 1) :
    jsRound q = z := by
  rw [jsRound]
  exact Int.floor_eq_iff.mpr ⟨by exact_mod_cast h1, by exact_mod_cast h2⟩

theorem le_jsRound (z : ℤ) (q : ℚ) (h : (z : ℚ) ≤ q) : z ≤ jsRound q := by
  rw [jsRound]
  exact Int.le_floor.mpr (by linarith)

theorem jsRound_mono (q r : ℚ) (h : q ≤ r) : jsRound q ≤ jsRound r := by
  rw [jsRound, jsRound]
  exact Int.floor_le_floor (by linarith)

theorem base_le_overridden (base : ℚ) (ti : Option ThreatIntelResult) :
    base ≤ overriddenScoreOf base ti := by
  rw [overriddenScoreOf]
  split_ifs <;> simp [le_max_iff]

theorem overridden_ge_known (base : ℚ) (t : ThreatIntelResult)
    (h : t.knownMalicious = true) : 90 ≤ overriddenScoreOf base (some t) := by
  rw [overriddenScoreOf]
  simp only [Option.map_some', Option.getD_some, Option.some_bind, h, if_true]
  split_ifs <;> simp [le_max_iff]

theorem overridden_ge_sb (base : ℚ) (t : ThreatIntelResult)
    (h : (t.safeBrowsing.map fun sb => sb.isMalicious).getD false = true) :
    85 ≤ overriddenScoreOf base (some t) := by
  rw [overriddenScoreOf]
  simp only [Option.map_some', Option.getD_some, Option.some_bind, h, if_true]
  split_ifs <;> simp [le_max_iff]

theorem overridden_ge_vt (base : ℚ) (t : ThreatIntelResult)
    (h : 5 ≤ (t.virusTotal.map fun v => v.positives).getD 0) :
    80 ≤ overriddenScoreOf base (some t) := by
  rw [overriddenScoreOf]
  simp only [Option.some_bind, if_pos h]
  split_ifs <;> simp [le_max_iff]

/-- Claim C1: the pre-override base score is the weighted sum of the
present sources (nominal weights 0.35/0.35/0.30) divided by the total
weight of the present sources only, and 0 when no source is present; in
particular a lone ML result of risk score 80 yields breakdown.mlScore = 80
and unifiedRiskScore = 80, unaffected by the 0.35 nominal weight. -/
theorem C1_renormalised_base_score :
    (∀ ml llm ti, baseScoreOf ml llm ti = specBaseScore ml llm ti) ∧
    (fuseRiskScores (some mlExample80) none none).breakdown.mlScore = 80 ∧
    (fuseRiskScores (some mlExample80) none none).unifiedRiskScore = 80 := by
  refine ⟨?_, ?_, ?_⟩
  · intro ml llm ti
    cases ml <;> cases llm <;> cases ti <;>
      (simp [baseScoreOf, specBaseScore, specPresentSources, totalWeightOf, weightedSumOf,
        mlScoreOf, llmScoreOf, tiScoreOf, W_ML, W_LLM, W_THREAT_INTEL]) <;>
      norm_num <;> ring
  · show jsRound (mlScoreOf (some mlExample80)) = 80
    rw [show mlScoreOf (some mlExample80) = 80 from rfl]
    exact jsRound_eval 80 80 (by norm_num) (by norm_num)
  · show min 100 (jsRound (overriddenScoreOf (baseScoreOf (some mlExample80) none none) none)) = 80
    have hov : overriddenScoreOf (baseScoreOf (some mlExample80) none none) none =
        baseScoreOf (some mlExample80) none none := by
      rw [overriddenScoreOf]
      norm_num
    have hbase : baseScoreOf (some mlExample80) none none = 80 := by
      simp [baseScoreOf, totalWeightOf, weightedSumOf, mlScoreOf, mlExample80,
        W_ML, W_LLM, W_THREAT_INTEL]
      norm_num
    rw [hov, hbase, jsRound_eval 80 80 (by norm_num) (by norm_num)]
    norm_num

/-- Claim C2: with threat intel present, knownMalicious floors the unified
score at 90, a malicious safe-browsing verdict at 85, and at least five
VirusTotal positives at 80; each override is a running maximum, so the
final score is never below the clamped rounded base score; in particular
the knownMalicious-only input scores at least 90 although its base
weighted score is 0. -/
theorem C2_hard_override_floors :
    (∀ ml llm (t : ThreatIntelResult),
      (t.knownMalicious = true →
          90 ≤ (fuseRiskScores ml llm (some t)).unifiedRiskScore) ∧
      ((t.safeBrowsing.map fun sb => sb.isMalicious).getD false = true →
          85 ≤ (fuseRiskScores ml llm (some t)).unifiedRiskScore) ∧
      (5 ≤ (t.virusTotal.map fun v => v.positives).getD 0 →
          80 ≤ (fuseRiskScores ml llm (some t)).unifiedRiskScore)) ∧
    (∀ ml llm ti,
      min 100 (jsRound (baseScoreOf ml llm ti)) ≤
        (fuseRiskScores ml llm ti).unifiedRiskScore) ∧
    baseScoreOf none none (some tiExampleMalicious) = 0 ∧
    90 ≤ (fuseRiskScores none none (some tiExampleMalicious)).unifiedRiskScore := by
  have hscore : ∀ ml llm ti, (fuseRiskScores ml llm ti).unifiedRiskScore =
      min 100 (jsRound (overriddenScoreOf (baseScoreOf ml llm ti) ti)) := fun _ _ _ => rfl
  refine ⟨fun ml llm t => ⟨?_, ?_, ?_⟩, fun ml llm ti => ?_, ?_, ?_⟩
  · intro h
    rw [hscore]
    exact le_min (by norm_num) (le_jsRound 90 _ (by exact_mod_cast overridden_ge_known _ t h))
  · intro h
    rw [hscore]
    exact le_min (by norm_num) (le_jsRound 85 _ (by exact_mod_cast overridden_ge_sb _ t h))
  · intro h
    rw [hscore]
    exact le_min (by norm_num) (le_jsRound 80 _ (by exact_mod_cast overridden_ge_vt _ t h))
  · rw [hscore]
    exact min_le_min (le_refl 100) (jsRound_mono _ _ (base_le_overridden _ ti))
  · simp [baseScoreOf, totalWeightOf, weightedSumOf, tiScoreOf, tiExampleMalicious,
      W_ML, W_LLM, W_THREAT_INTEL]
  · rw [hscore]
    exact le_min (by norm_num)
      (le_jsRound 90 _ (by exact_mod_cast overridden_ge_known _ tiExampleMalicious rfl))

theorem C2_hard_override_floors_witness :
    tiExampleMalicious.knownMalicious = true ∧
    90 ≤ (fuseRiskScores none none (some tiExampleMalicious)).unifiedRiskScore :=
  ⟨rfl, (C2_hard_override_floors.1 none none tiExampleMalicious).1 rfl⟩

/-- Claim C3: the tier is determined from the final integer unified score
by closed thresholds with inclusive lower bounds (80 for
CONFIRMED_PHISHING, 60 for HIGH_RISK, 35 for SUSPICIOUS, below 35 SAFE);
exactly 35, 60 and 80 map to the higher tier, while 34, 59 and 79 map to
the tier below. -/
theorem C3_tier_thresholds :
    (∀ z : ℤ,
      (toTier z = .CONFIRMED_PHISHING ↔ 80 ≤ z) ∧
      (toTier z = .HIGH_RISK ↔ 60 ≤ z ∧ z < 80) ∧
      (toTier z = .SUSPICIOUS ↔ 35 ≤ z ∧ z < 60) ∧
      (toTier z = .SAFE ↔ z < 35)) ∧
    (∀ ml llm ti,
      (fuseRiskScores ml llm ti).tier =
        toTier (fuseRiskScores ml llm ti).unifiedRiskScore) ∧
    toTier 35 = .SUSPICIOUS ∧ toTier 60 = .HIGH_RISK ∧ toTier 80 = .CONFIRMED_PHISHING ∧
    toTier 34 = .SAFE ∧ toTier 59 = .SUSPICIOUS ∧ toTier 79 = .HIGH_RISK := by
  refine ⟨?_, fun ml llm ti => rfl, by decide, by decide, by decide, by decide, by decide,
    by decide⟩
  intro z
  unfold toTier
  refine ⟨?_, ?_, ?_, ?_⟩ <;> split_ifs <;> simp_all <;> omega

/-- Claim C5 counterexample: the fusion result propagates an LLM attack
category of NONE verbatim instead of coercing it to UNKNOWN, so the claim
that NONE is never propagated is false on the code. -/
theorem C5_counterexample :
    (fuseRiskScores none (some llmExampleNone) none).attackCategory = AttackCategory.NONE ∧
    AttackCategory.NONE ≠ AttackCategory.UNKNOWN := by
  exact ⟨by decide, by decide⟩

/-- Claim C5 amended: when an LLM result is present its attack category is
returned verbatim (the UNKNOWN guard is the identity on the closed enum,
so NONE is propagated as NONE); when it is absent the category is
UNKNOWN. -/
theorem C5_amended :
    (∀ ml ti (l : LlmAnalysisResult),
      (fuseRiskScores ml (some l) ti).attackCategory = l.attackCategory) ∧
    (∀ ml ti, (fuseRiskScores ml none ti).attackCategory = AttackCategory.UNKNOWN) := by
  constructor
  · intro ml ti l
    show attackCategoryOf (some l) = l.attackCategory
    rw [attackCategoryOf]
    by_cases h : l.attackCategory = .UNKNOWN <;> simp [h]
  · intro ml ti
    rfl

/-! ### Entropy comparison helpers -/

theorem logb_lt_ninehalf (m : ℕ) (hm : 0 < m) (h : m ^ 2 < 512) :
    Real.logb 2 (m : ℝ) < 4.5 := by
  have hlog2 : (0:ℝ) < Real.log 2 := Real.log_pos (by norm_num)
  rw [Real.logb, div_lt_iff₀ hlog2]
  have hlt : Real.log ((m : ℝ) ^ 2) < Real.log (2 ^ 9) := by
    apply Real.log_lt_log (by positivity)
    rw [show ((2:ℝ) ^ 9) = 512 by norm_num]
    exact_mod_cast h
  rw [Real.log_pow, Real.log_pow] at hlt
  push_cast at hlt
  linarith

theorem entropy_not_high (s : String) (k : ℕ) (hbmp : ∀ c ∈ s.data, c.toNat < 65536)
    (hk : s.data.dedup.length = k) (hkpos : 0 < k) (hksq : k ^ 2 < 512) :
    ¬ (4.5 < shannonEntropy s) := by
  have h1 := shannonEntropy_le_logb s hbmp
  rw [hk] at h1
  have h2 := logb_lt_ninehalf k hkpos hksq
  push_neg
  linarith

/-! ### Brand-scan evaluations for the concrete URLs -/

theorem brandScan_paypai : brandScan "paypai" "paypa1" = ((5/6 : ℚ), (5/6 : ℚ)) := by
  have hne : ("paypa1" : String) ≠ "paypai" := by decide
  have ln : ("paypai" : String).length = 6 := rfl
  have d0 : levenshtein "paypai" "paypal" = 1 := by decide
  have l0 : ("paypal" : String).length = 6 := rfl
  have s0 : brandStep "paypai" "paypa1" ((0 : ℚ), (0 : ℚ)) "paypal" = ((5/6 : ℚ), (5/6 : ℚ)) := by
    norm_num [brandStep, brandSim, hne, d0, ln, l0, max_def]
  have d1 : levenshtein "paypai" "amazon" = 6 := by decide
  have l1 : ("amazon" : String).length = 6 := rfl
  have s1 : brandStep "paypai" "paypa1" ((5/6 : ℚ), (5/6 : ℚ)) "amazon" = ((5/6 : ℚ), (5/6 : ℚ)) := by
    norm_num [brandStep, brandSim, hne, d1, ln, l1, max_def]
  have d2 : levenshtein "paypai" "apple" = 4 := by decide
  have l2 : ("apple" : String).length = 5 := rfl
  have s2 : brandStep "paypai" "paypa1" ((5/6 : ℚ), (5/6 : ℚ)) "apple" = ((5/6 : ℚ), (5/6 : ℚ)) := by
    norm_num [brandStep, brandSim, hne, d2, ln, l2, max_def]
  have d3 : levenshtein "paypai" "microsoft" = 9 := by decide
  have l3 : ("microsoft" : String).length = 9 := rfl
  have s3 : brandStep "paypai" "paypa1" ((5/6 : ℚ), (5/6 : ℚ)) "microsoft" = ((5/6 : ℚ), (5/6 : ℚ)) := by
    norm_num [brandStep, brandSim, hne, d3, ln, l3, max_def]
  have d4 : levenshtein "paypai" "google" = 6 := by decide
  have l4 : ("google" : String).length = 6 := rfl
  have s4 : brandStep "paypai" "paypa1" ((5/6 : ℚ), (5/6 : ℚ)) "google" = ((5/6 : ℚ), (5/6 : ℚ)) := by
    norm_num [brandStep, brandSim, hne, d4, ln, l4, max_def]
  have d5 : levenshtein "paypai" "facebook" = 7 := by decide
  have l5 : ("facebook" : String).length = 8 := rfl
  have s5 : brandStep "paypai" "paypa1" ((5/6 : ℚ), (5/6 : ℚ)) "facebook" = ((5/6 : ℚ), (5/6 : ℚ)) := by
    norm_num [brandStep, brandSim, hne, d5, ln, l5, max_def]
  have d6 : levenshtein "paypai" "instagram" = 7 := by decide
  have l6 : ("instagram" : String).length = 9 := rfl
  have s6 : brandStep "paypai" "paypa1" ((5/6 : ℚ), (5/6 : ℚ)) "instagram" = ((5/6 : ℚ), (5/6 : ℚ)) := by
    norm_num [brandStep, brandSim, hne, d6, ln, l6, max_def]
  have d7 : levenshtein "paypai" "netflix" = 6 := by decide
  have l7 : ("netflix" : String).length = 7 := rfl
  have s7 : brandStep "paypai" "paypa1" ((5/6 : ℚ), (5/6 : ℚ)) "netflix" = ((5/6 : ℚ), (5/6 : ℚ)) := by
    norm_num [brandStep, brandSim, hne, d7, ln, l7, max_def]
  have d8 : levenshtein "paypai" "linkedin" = 7 := by decide
  have l8 : ("linkedin" : String).length = 8 := rfl
  have s8 : brandStep "paypai" "paypa1" ((5/6 : ℚ), (5/6 : ℚ)) "linkedin" = ((5/6 : ℚ), (5/6 : ℚ)) := by
    norm_num [brandStep, brandSim, hne, d8, ln, l8, max_def]
  have d9 : levenshtein "paypai" "twitter" = 7 := by decide
  have l9 : ("twitter" : String).length = 7 := rfl
  have s9 : brandStep "paypai" "paypa1" ((5/6 : ℚ), (5/6 : ℚ)) "twitter" = ((5/6 : ℚ), (5/6 : ℚ)) := by
    norm_num [brandStep, brandSim, hne, d9, ln, l9, max_def]
  have d10 : levenshtein "paypai" "x" = 6 := by decide
  have l10 : ("x" : String).length = 1 := rfl
  have s10 : brandStep "paypai" "paypa1" ((5/6 : ℚ), (5/6 : ℚ)) "x" = ((5/6 : ℚ), (5/6 : ℚ)) := by
    norm_num [brandStep, brandSim, hne, d10, ln, l10, max_def]
  have d11 : levenshtein "paypai" "dropbox" = 6 := by decide
  have l11 : ("dropbox" : String).length = 7 := rfl
  have s11 : brandStep "paypai" "paypa1" ((5/6 : ℚ), (5/6 : ℚ)) "dropbox" = ((5/6 : ℚ), (5/6 : ℚ)) := by
    norm_num [brandStep, brandSim, hne, d11, ln, l11, max_def]
  have d12 : levenshtein "paypai" "github" = 6 := by decide
  have l12 : ("github" : String).length = 6 := rfl
  have s12 : brandStep "paypai" "paypa1" ((5/6 : ℚ), (5/6 : ℚ)) "github" = ((5/6 : ℚ), (5/6 : ℚ)) := by
    norm_num [brandStep, brandSim, hne, d12, ln, l12, max_def]
  have d13 : levenshtein "paypai" "gmail" = 5 := by decide
  have l13 : ("gmail" : String).length = 5 := rfl
  have s13 : brandStep "paypai" "paypa1" ((5/6 : ℚ), (5/6 : ℚ)) "gmail" = ((5/6 : ℚ), (5/6 : ℚ)) := by
    norm_num [brandStep, brandSim, hne, d13, ln, l13, max_def]
  have d14 : levenshtein "paypai" "outlook" = 7 := by decide
  have l14 : ("outlook" : String).length = 7 := rfl
  have s14 : brandStep "paypai" "paypa1" ((5/6 : ℚ), (5/6 : ℚ)) "outlook" = ((5/6 : ℚ), (5/6 : ℚ)) := by
    norm_num [brandStep, brandSim, hne, d14, ln, l14, max_def]
  have d15 : levenshtein "paypai" "yahoo" = 5 := by decide
  have l15 : ("yahoo" : String).length = 5 := rfl
  have s15 : brandStep "paypai" "paypa1" ((5/6 : ℚ), (5/6 : ℚ)) "yahoo" = ((5/6 : ℚ), (5/6 : ℚ)) := by
    norm_num [brandStep, brandSim, hne, d15, ln, l15, max_def]
  have d16 : levenshtein "paypai" "bankofamerica" = 10 := by decide
  have l16 : ("bankofamerica" : String).length = 13 := rfl
  have s16 : brandStep "paypai" "paypa1" ((5/6 : ℚ), (5/6 : ℚ)) "bankofamerica" = ((5/6 : ℚ), (5/6 : ℚ)) := by
    norm_num [brandStep, brandSim, hne, d16, ln, l16, max_def]
  have d17 : levenshtein "paypai" "chase" = 6 := by decide
  have l17 : ("chase" : String).length = 5 := rfl
  have s17 : brandStep "paypai" "paypa1" ((5/6 : ℚ), (5/6 : ℚ)) "chase" = ((5/6 : ℚ), (5/6 : ℚ)) := by
    norm_num [brandStep, brandSim, hne, d17, ln, l17, max_def]
  have d18 : levenshtein "paypai" "wellsfargo" = 9 := by decide
  have l18 : ("wellsfargo" : String).length = 10 := rfl
  have s18 : brandStep "paypai" "paypa1" ((5/6 : ℚ), (5/6 : ℚ)) "wellsfargo" = ((5/6 : ℚ), (5/6 : ℚ)) := by
    norm_num [brandStep, brandSim, hne, d18, ln, l18, max_def]
  have d19 : levenshtein "paypai" "citibank" = 7 := by decide
  have l19 : ("citibank" : String).length = 8 := rfl
  have s19 : brandStep "paypai" "paypa1" ((5/6 : ℚ), (5/6 : ℚ)) "citibank" = ((5/6 : ℚ), (5/6 : ℚ)) := by
    norm_num [brandStep, brandSim, hne, d19, ln, l19, max_def]
  have d20 : levenshtein "paypai" "barclays" = 6 := by decide
  have l20 : ("barclays" : String).length = 8 := rfl
  have s20 : brandStep "paypai" "paypa1" ((5/6 : ℚ), (5/6 : ℚ)) "barclays" = ((5/6 : ℚ), (5/6 : ℚ)) := by
    norm_num [brandStep, brandSim, hne, d20, ln, l20, max_def]
  have d21 : levenshtein "paypai" "hsbc" = 6 := by decide
  have l21 : ("hsbc" : String).length = 4 := rfl
  have s21 : brandStep "paypai" "paypa1" ((5/6 : ℚ), (5/6 : ℚ)) "hsbc" = ((5/6 : ℚ), (5/6 : ℚ)) := by
    norm_num [brandStep, brandSim, hne, d21, ln, l21, max_def]
  have d22 : levenshtein "paypai" "dhl" = 6 := by decide
  have l22 : ("dhl" : String).length = 3 := rfl
  have s22 : brandStep "paypai" "paypa1" ((5/6 : ℚ), (5/6 : ℚ)) "dhl" = ((5/6 : ℚ), (5/6 : ℚ)) := by
    norm_num [brandStep, brandSim, hne, d22, ln, l22, max_def]
  have d23 : levenshtein "paypai" "fedex" = 6 := by decide
  have l23 : ("fedex" : String).length = 5 := rfl
  have s23 : brandStep "paypai" "paypa1" ((5/6 : ℚ), (5/6 : ℚ)) "fedex" = ((5/6 : ℚ), (5/6 : ℚ)) := by
    norm_num [brandStep, brandSim, hne, d23, ln, l23, max_def]
  have d24 : levenshtein "paypai" "ups" = 5 := by decide
  have l24 : ("ups" : String).length = 3 := rfl
  have s24 : brandStep "paypai" "paypa1" ((5/6 : ℚ), (5/6 : ℚ)) "ups" = ((5/6 : ℚ), (5/6 : ℚ)) := by
    norm_num [brandStep, brandSim, hne, d24, ln, l24, max_def]
  rw [brandScan, WELL_KNOWN_BRANDS]
  rw [List.foldl_cons, s0, List.foldl_cons, s1, List.foldl_cons, s2, List.foldl_cons, s3, List.foldl_cons, s4, List.foldl_cons, s5, List.foldl_cons, s6, List.foldl_cons, s7, List.foldl_cons, s8, List.foldl_cons, s9, List.foldl_cons, s10, List.foldl_cons, s11, List.foldl_cons, s12, List.foldl_cons, s13, List.foldl_cons, s14, List.foldl_cons, s15, List.foldl_cons, s16, List.foldl_cons, s17, List.foldl_cons, s18, List.foldl_cons, s19, List.foldl_cons, s20, List.foldl_cons, s21, List.foldl_cons, s22, List.foldl_cons, s23, List.foldl_cons, s24, List.foldl_nil]

theorem brandScan_paypaiSecure : brandScan "paypai-secure" "paypa1-secure" = ((5/13 : ℚ), (0 : ℚ)) := by
  have hne : ("paypa1-secure" : String) ≠ "paypai-secure" := by decide
  have ln : ("paypai-secure" : String).length = 13 := rfl
  have d0 : levenshtein "paypai-secure" "paypal" = 8 := by decide
  have l0 : ("paypal" : String).length = 6 := rfl
  have s0 : brandStep "paypai-secure" "paypa1-secure" ((0 : ℚ), (0 : ℚ)) "paypal" = ((5/13 : ℚ), (0 : ℚ)) := by
    norm_num [brandStep, brandSim, hne, d0, ln, l0, max_def]
  have d1 : levenshtein "paypai-secure" "amazon" = 11 := by decide
  have l1 : ("amazon" : String).length = 6 := rfl
  have s1 : brandStep "paypai-secure" "paypa1-secure" ((5/13 : ℚ), (0 : ℚ)) "amazon" = ((5/13 : ℚ), (0 : ℚ)) := by
    norm_num [brandStep, brandSim, hne, d1, ln, l1, max_def]
  have d2 : levenshtein "paypai-secure" "apple" = 10 := by decide
  have l2 : ("apple" : String).length = 5 := rfl
  have s2 : brandStep "paypai-secure" "paypa1-secure" ((5/13 : ℚ), (0 : ℚ)) "apple" = ((5/13 : ℚ), (0 : ℚ)) := by
    norm_num [brandStep, brandSim, hne, d2, ln, l2, max_def]
  have d3 : levenshtein "paypai-secure" "microsoft" = 12 := by decide
  have l3 : ("microsoft" : String).length = 9 := rfl
  have s3 : brandStep "paypai-secure" "paypa1-secure" ((5/13 : ℚ), (0 : ℚ)) "microsoft" = ((5/13 : ℚ), (0 : ℚ)) := by
    norm_num [brandStep, brandSim, hne, d3, ln, l3, max_def]
  have d4 : levenshtein "paypai-secure" "google" = 12 := by decide
  have l4 : ("google" : String).length = 6 := rfl
  have s4 : brandStep "paypai-secure" "paypa1-secure" ((5/13 : ℚ), (0 : ℚ)) "google" = ((5/13 : ℚ), (0 : ℚ)) := by
    norm_num [brandStep, brandSim, hne, d4, ln, l4, max_def]
  have d5 : levenshtein "paypai-secure" "facebook" = 11 := by decide
  have l5 : ("facebook" : String).length = 8 := rfl
  have s5 : brandStep "paypai-secure" "paypa1-secure" ((5/13 : ℚ), (0 : ℚ)) "facebook" = ((5/13 : ℚ), (0 : ℚ)) := by
    norm_num [brandStep, brandSim, hne, d5, ln, l5, max_def]
  have d6 : levenshtein "paypai-secure" "instagram" = 11 := by decide
  have l6 : ("instagram" : String).length = 9 := rfl
  have s6 : brandStep "paypai-secure" "paypa1-secure" ((5/13 : ℚ), (0 : ℚ)) "instagram" = ((5/13 : ℚ), (0 : ℚ)) := by
    norm_num [brandStep, brandSim, hne, d6, ln, l6, max_def]
  have d7 : levenshtein "paypai-secure" "netflix" = 12 := by decide
  have l7 : ("netflix" : String).length = 7 := rfl
  have s7 : brandStep "paypai-secure" "paypa1-secure" ((5/13 : ℚ), (0 : ℚ)) "netflix" = ((5/13 : ℚ), (0 : ℚ)) := by
    norm_num [brandStep, brandSim, hne, d7, ln, l7, max_def]
  have d8 : levenshtein "paypai-secure" "linkedin" = 11 := by decide
  have l8 : ("linkedin" : String).length = 8 := rfl
  have s8 : brandStep "paypai-secure" "paypa1-secure" ((5/13 : ℚ), (0 : ℚ)) "linkedin" = ((5/13 : ℚ), (0 : ℚ)) := by
    norm_num [brandStep, brandSim, hne, d8, ln, l8, max_def]
  have d9 : levenshtein "paypai-secure" "twitter" = 10 := by decide
  have l9 : ("twitter" : String).length = 7 := rfl
  have s9 : brandStep "paypai-secure" "paypa1-secure" ((5/13 : ℚ), (0 : ℚ)) "twitter" = ((5/13 : ℚ), (0 : ℚ)) := by
    norm_num [brandStep, brandSim, hne, d9, ln, l9, max_def]
  have d10 : levenshtein "paypai-secure" "x" = 13 := by decide
  have l10 : ("x" : String).length = 1 := rfl
  have s10 : brandStep "paypai-secure" "paypa1-secure" ((5/13 : ℚ), (0 : ℚ)) "x" = ((5/13 : ℚ), (0 : ℚ)) := by
    norm_num [brandStep, brandSim, hne, d10, ln, l10, max_def]
  have d11 : levenshtein "paypai-secure" "dropbox" = 12 := by decide
  have l11 : ("dropbox" : String).length = 7 := rfl
  have s11 : brandStep "paypai-secure" "paypa1-secure" ((5/13 : ℚ), (0 : ℚ)) "dropbox" = ((5/13 : ℚ), (0 : ℚ)) := by
    norm_num [brandStep, brandSim, hne, d11, ln, l11, max_def]
  have d12 : levenshtein "paypai-secure" "github" = 11 := by decide
  have l12 : ("github" : String).length = 6 := rfl
  have s12 : brandStep "paypai-secure" "paypa1-secure" ((5/13 : ℚ), (0 : ℚ)) "github" = ((5/13 : ℚ), (0 : ℚ)) := by
    norm_num [brandStep, brandSim, hne, d12, ln, l12, max_def]
  have d13 : levenshtein "paypai-secure" "gmail" = 11 := by decide
  have l13 : ("gmail" : String).length = 5 := rfl
  have s13 : brandStep "paypai-secure" "paypa1-secure" ((5/13 : ℚ), (0 : ℚ)) "gmail" = ((5/13 : ℚ), (0 : ℚ)) := by
    norm_num [brandStep, brandSim, hne, d13, ln, l13, max_def]
  have d14 : levenshtein "paypai-secure" "outlook" = 13 := by decide
  have l14 : ("outlook" : String).length = 7 := rfl
  have s14 : brandStep "paypai-secure" "paypa1-secure" ((5/13 : ℚ), (0 : ℚ)) "outlook" = ((5/13 : ℚ), (0 : ℚ)) := by
    norm_num [brandStep, brandSim, hne, d14, ln, l14, max_def]
  have d15 : levenshtein "paypai-secure" "yahoo" = 11 := by decide
  have l15 : ("yahoo" : String).length = 5 := rfl
  have s15 : brandStep "paypai-secure" "paypa1-secure" ((5/13 : ℚ), (0 : ℚ)) "yahoo" = ((5/13 : ℚ), (0 : ℚ)) := by
    norm_num [brandStep, brandSim, hne, d15, ln, l15, max_def]
  have d16 : levenshtein "paypai-secure" "bankofamerica" = 11 := by decide
  have l16 : ("bankofamerica" : String).length = 13 := rfl
  have s16 : brandStep "paypai-secure" "paypa1-secure" ((5/13 : ℚ), (0 : ℚ)) "bankofamerica" = ((5/13 : ℚ), (0 : ℚ)) := by
    norm_num [brandStep, brandSim, hne, d16, ln, l16, max_def]
  have d17 : levenshtein "paypai-secure" "chase" = 10 := by decide
  have l17 : ("chase" : String).length = 5 := rfl
  have s17 : brandStep "paypai-secure" "paypa1-secure" ((5/13 : ℚ), (0 : ℚ)) "chase" = ((5/13 : ℚ), (0 : ℚ)) := by
    norm_num [brandStep, brandSim, hne, d17, ln, l17, max_def]
  have d18 : levenshtein "paypai-secure" "wellsfargo" = 12 := by decide
  have l18 : ("wellsfargo" : String).length = 10 := rfl
  have s18 : brandStep "paypai-secure" "paypa1-secure" ((5/13 : ℚ), (0 : ℚ)) "wellsfargo" = ((5/13 : ℚ), (0 : ℚ)) := by
    norm_num [brandStep, brandSim, hne, d18, ln, l18, max_def]
  have d19 : levenshtein "paypai-secure" "citibank" = 12 := by decide
  have l19 : ("citibank" : String).length = 8 := rfl
  have s19 : brandStep "paypai-secure" "paypa1-secure" ((5/13 : ℚ), (0 : ℚ)) "citibank" = ((5/13 : ℚ), (0 : ℚ)) := by
    norm_num [brandStep, brandSim, hne, d19, ln, l19, max_def]
  have d20 : levenshtein "paypai-secure" "barclays" = 11 := by decide
  have l20 : ("barclays" : String).length = 8 := rfl
  have s20 : brandStep "paypai-secure" "paypa1-secure" ((5/13 : ℚ), (0 : ℚ)) "barclays" = ((5/13 : ℚ), (0 : ℚ)) := by
    norm_num [brandStep, brandSim, hne, d20, ln, l20, max_def]
  have d21 : levenshtein "paypai-secure" "hsbc" = 11 := by decide
  have l21 : ("hsbc" : String).length = 4 := rfl
  have s21 : brandStep "paypai-secure" "paypa1-secure" ((5/13 : ℚ), (0 : ℚ)) "hsbc" = ((5/13 : ℚ), (0 : ℚ)) := by
    norm_num [brandStep, brandSim, hne, d21, ln, l21, max_def]
  have d22 : levenshtein "paypai-secure" "dhl" = 13 := by decide
  have l22 : ("dhl" : String).length = 3 := rfl
  have s22 : brandStep "paypai-secure" "paypa1-secure" ((5/13 : ℚ), (0 : ℚ)) "dhl" = ((5/13 : ℚ), (0 : ℚ)) := by
    norm_num [brandStep, brandSim, hne, d22, ln, l22, max_def]
  have d23 : levenshtein "paypai-secure" "fedex" = 12 := by decide
  have l23 : ("fedex" : String).length = 5 := rfl
  have s23 : brandStep "paypai-secure" "paypa1-secure" ((5/13 : ℚ), (0 : ℚ)) "fedex" = ((5/13 : ℚ), (0 : ℚ)) := by
    norm_num [brandStep, brandSim, hne, d23, ln, l23, max_def]
  have d24 : levenshtein "paypai-secure" "ups" = 11 := by decide
  have l24 : ("ups" : String).length = 3 := rfl
  have s24 : brandStep "paypai-secure" "paypa1-secure" ((5/13 : ℚ), (0 : ℚ)) "ups" = ((5/13 : ℚ), (0 : ℚ)) := by
    norm_num [brandStep, brandSim, hne, d24, ln, l24, max_def]
  rw [brandScan, WELL_KNOWN_BRANDS]
  rw [List.foldl_cons, s0, List.foldl_cons, s1, List.foldl_cons, s2, List.foldl_cons, s3, List.foldl_cons, s4, List.foldl_cons, s5, List.foldl_cons, s6, List.foldl_cons, s7, List.foldl_cons, s8, List.foldl_cons, s9, List.foldl_cons, s10, List.foldl_cons, s11, List.foldl_cons, s12, List.foldl_cons, s13, List.foldl_cons, s14, List.foldl_cons, s15, List.foldl_cons, s16, List.foldl_cons, s17, List.foldl_cons, s18, List.foldl_cons, s19, List.foldl_cons, s20, List.foldl_cons, s21, List.foldl_cons, s22, List.foldl_cons, s23, List.foldl_cons, s24, List.foldl_nil]

/-! ### Rule-table evaluation on the concrete URLs -/

theorem scored_specHomoglyphUrl :
    scoreFeatures (extractUrlFeatures specHomoglyphUrl) =
      [⟨15, "Suspicious TLD (.tk)"⟩, ⟨14, "Suspicious keywords in URL"⟩] := by
  have hIp : (extractUrlFeatures specHomoglyphUrl).hasIpAddress = false := by decide
  have hHt : (extractUrlFeatures specHomoglyphUrl).hasHttps = true := by decide
  have hTl : (extractUrlFeatures specHomoglyphUrl).hasSuspiciousTld = true := by decide
  have hTs : (extractUrlFeatures specHomoglyphUrl).tld = "tk" := by decide
  have hKw : (extractUrlFeatures specHomoglyphUrl).hasSuspiciousKeywords = true := by decide
  have hEn : (extractUrlFeatures specHomoglyphUrl).hasEncodedChars = false := by decide
  have hDu : (extractUrlFeatures specHomoglyphUrl).hasDataUri = false := by decide
  have hPo : (extractUrlFeatures specHomoglyphUrl).hasPortInUrl = false := by decide
  have hAt : (extractUrlFeatures specHomoglyphUrl).atSymbolCount = 0 := by decide
  have hSd : (extractUrlFeatures specHomoglyphUrl).subdomainDepth = 0 := by decide
  have hLe : (extractUrlFeatures specHomoglyphUrl).length = 30 := by decide
  have hEnt : (extractUrlFeatures specHomoglyphUrl).entropy = shannonEntropy specHomoglyphUrl :=
    rfl
  have hDg : (extractUrlFeatures specHomoglyphUrl).digitRatio = ((1:ℕ):ℚ)/((30:ℕ):ℚ) := rfl
  have hDa : (extractUrlFeatures specHomoglyphUrl).dashCount = 1 := by decide
  have hDo : (extractUrlFeatures specHomoglyphUrl).dotCount = 1 := by decide
  have hQu : (extractUrlFeatures specHomoglyphUrl).queryParamCount = 0 := by decide
  have hHo : (extractUrlFeatures specHomoglyphUrl).homoglyphScore =
      (brandScan "paypai-secure" "paypa1-secure").2 := rfl
  have hBr : (extractUrlFeatures specHomoglyphUrl).brandSimilarityScore =
      (brandScan "paypai-secure" "paypa1-secure").1 := rfl
  have hPa : (extractUrlFeatures specHomoglyphUrl).pathDepth = 1 := by decide
  rw [brandScan_paypaiSecure] at hHo hBr
  have hNoEnt : ¬ (4.5 < (extractUrlFeatures specHomoglyphUrl).entropy) := by
    rw [hEnt]
    exact entropy_not_high _ 21 (by decide) (by decide) (by norm_num) (by norm_num)
  rw [scoreFeatures, if_neg hNoEnt]
  rw [hIp, hHt, hTl, hTs, hKw, hEn, hDu, hPo, hAt, hSd, hLe, hDg, hDa, hDo, hQu, hHo, hBr, hPa]
  norm_num
  decide

theorem scored_fixedHomoglyphUrl :
    scoreFeatures (extractUrlFeatures fixedHomoglyphUrl) =
      [⟨12, "Non-HTTPS connection"⟩, ⟨15, "Suspicious TLD (.tk)"⟩,
       ⟨14, "Suspicious keywords in URL"⟩,
       ⟨22, "Homoglyph brand impersonation detected"⟩] := by
  have hIp : (extractUrlFeatures fixedHomoglyphUrl).hasIpAddress = false := by decide
  have hHt : (extractUrlFeatures fixedHomoglyphUrl).hasHttps = false := by decide
  have hTl : (extractUrlFeatures fixedHomoglyphUrl).hasSuspiciousTld = true := by decide
  have hTs : (extractUrlFeatures fixedHomoglyphUrl).tld = "tk" := by decide
  have hKw : (extractUrlFeatures fixedHomoglyphUrl).hasSuspiciousKeywords = true := by decide
  have hEn : (extractUrlFeatures fixedHomoglyphUrl).hasEncodedChars = false := by decide
  have hDu : (extractUrlFeatures fixedHomoglyphUrl).hasDataUri = false := by decide
  have hPo : (extractUrlFeatures fixedHomoglyphUrl).hasPortInUrl = false := by decide
  have hAt : (extractUrlFeatures fixedHomoglyphUrl).atSymbolCount = 0 := by decide
  have hSd : (extractUrlFeatures fixedHomoglyphUrl).subdomainDepth = 0 := by decide
  have hLe : (extractUrlFeatures fixedHomoglyphUrl).length = 22 := by decide
  have hEnt : (extractUrlFeatures fixedHomoglyphUrl).entropy = shannonEntropy fixedHomoglyphUrl :=
    rfl
  have hDg : (extractUrlFeatures fixedHomoglyphUrl).digitRatio = ((1:ℕ):ℚ)/((22:ℕ):ℚ) := rfl
  have hDa : (extractUrlFeatures fixedHomoglyphUrl).dashCount = 0 := by decide
  have hDo : (extractUrlFeatures fixedHomoglyphUrl).dotCount = 1 := by decide
  have hQu : (extractUrlFeatures fixedHomoglyphUrl).queryParamCount = 0 := by decide
  have hHo : (extractUrlFeatures fixedHomoglyphUrl).homoglyphScore =
      (brandScan "paypai" "paypa1").2 := rfl
  have hBr : (extractUrlFeatures fixedHomoglyphUrl).brandSimilarityScore =
      (brandScan "paypai" "paypa1").1 := rfl
  have hPa : (extractUrlFeatures fixedHomoglyphUrl).pathDepth = 1 := by decide
  rw [brandScan_paypai] at hHo hBr
  have hNoEnt : ¬ (4.5 < (extractUrlFeatures fixedHomoglyphUrl).entropy) := by
    rw [hEnt]
    exact entropy_not_high _ 15 (by decide) (by decide) (by norm_num) (by norm_num)
  rw [scoreFeatures, if_neg hNoEnt]
  rw [hIp, hHt, hTl, hTs, hKw, hEn, hDu, hPo, hAt, hSd, hLe, hDg, hDa, hDo, hQu, hHo, hBr, hPa]
  norm_num
  decide

theorem risk_specHomoglyphUrl : (analyseUrl specHomoglyphUrl).riskScore = 29 := by
  show min 100 ((scoreFeatures (extractUrlFeatures specHomoglyphUrl)).map fun i => i.score).sum
      = 29
  rw [scored_specHomoglyphUrl]
  norm_num

theorem inds_specHomoglyphUrl : (analyseUrl specHomoglyphUrl).indicators =
    ["Suspicious TLD (.tk)", "Suspicious keywords in URL"] := by
  show (scoreFeatures (extractUrlFeatures specHomoglyphUrl)).map (fun i => i.label) = _
  rw [scored_specHomoglyphUrl]
  rfl

theorem risk_fixedHomoglyphUrl : (analyseUrl fixedHomoglyphUrl).riskScore = 63 := by
  show min 100 ((scoreFeatures (extractUrlFeatures fixedHomoglyphUrl)).map fun i => i.score).sum
      = 63
  rw [scored_fixedHomoglyphUrl]
  norm_num

theorem inds_fixedHomoglyphUrl : (analyseUrl fixedHomoglyphUrl).indicators =
    ["Non-HTTPS connection", "Suspicious TLD (.tk)", "Suspicious keywords in URL",
     "Homoglyph brand impersonation detected"] := by
  show (scoreFeatures (extractUrlFeatures fixedHomoglyphUrl)).map (fun i => i.label) = _
  rw [scored_fixedHomoglyphUrl]
  rfl

theorem risk_cappedUrl : (analyseUrl cappedUrl).riskScore = 100 := by
  have hIp : (extractUrlFeatures cappedUrl).hasIpAddress = false := by decide
  have hHt : (extractUrlFeatures cappedUrl).hasHttps = false := by decide
  have hTl : (extractUrlFeatures cappedUrl).hasSuspiciousTld = true := by decide
  have hTs : (extractUrlFeatures cappedUrl).tld = "tk" := by decide
  have hKw : (extractUrlFeatures cappedUrl).hasSuspiciousKeywords = true := by decide
  have hEn : (extractUrlFeatures cappedUrl).hasEncodedChars = true := by decide
  have hDu : (extractUrlFeatures cappedUrl).hasDataUri = false := by decide
  have hPo : (extractUrlFeatures cappedUrl).hasPortInUrl = true := by decide
  have hAt : (extractUrlFeatures cappedUrl).atSymbolCount = 0 := by decide
  have hSd : (extractUrlFeatures cappedUrl).subdomainDepth = 5 := by decide
  have hLe : (extractUrlFeatures cappedUrl).length = 102 := by decide
  have hDg : (extractUrlFeatures cappedUrl).digitRatio = ((37:ℕ):ℚ)/((102:ℕ):ℚ) := rfl
  have hDa : (extractUrlFeatures cappedUrl).dashCount = 0 := by decide
  have hDo : (extractUrlFeatures cappedUrl).dotCount = 6 := by decide
  have hQu : (extractUrlFeatures cappedUrl).queryParamCount = 6 := by decide
  have hHo : (extractUrlFeatures cappedUrl).homoglyphScore =
      (brandScan "paypai" "paypa1").2 := rfl
  have hBr : (extractUrlFeatures cappedUrl).brandSimilarityScore =
      (brandScan "paypai" "paypa1").1 := rfl
  have hPa : (extractUrlFeatures cappedUrl).pathDepth = 7 := by decide
  rw [brandScan_paypai] at hHo hBr
  have key : 100 ≤ ((scoreFeatures (extractUrlFeatures cappedUrl)).map fun i => i.score).sum := by
    rw [scoreFeatures]
    rw [hIp, hHt, hTl, hTs, hKw, hEn, hDu, hPo, hAt, hSd, hLe, hDg, hDa, hDo, hQu, hHo, hBr, hPa]
    by_cases hE : (4.5 < (extractUrlFeatures cappedUrl).entropy)
    · rw [if_pos hE]
      norm_num
    · rw [if_neg hE]
      norm_num
  show min 100 ((scoreFeatures (extractUrlFeatures cappedUrl)).map fun i => i.score).sum = 100
  exact min_eq_left key

/-- Claim C4 counterexample: on the spec URL the analyser reports only the
suspicious-TLD and suspicious-keyword indicators and a risk score of 29,
well below 60 and with no homoglyph or brand-similarity indicator. -/
theorem C4_counterexample :
    (analyseUrl specHomoglyphUrl).riskScore = 29 ∧
    ¬ 60 ≤ (analyseUrl specHomoglyphUrl).riskScore ∧
    "Homoglyph brand impersonation detected" ∉ (analyseUrl specHomoglyphUrl).indicators ∧
    "Brand name similarity in domain" ∉ (analyseUrl specHomoglyphUrl).indicators := by
  refine ⟨risk_specHomoglyphUrl, ?_, ?_, ?_⟩
  · rw [risk_specHomoglyphUrl]
    norm_num
  · rw [inds_specHomoglyphUrl]
    decide
  · rw [inds_specHomoglyphUrl]
    decide

/-- Claim C4 amended: on `http://paypa1.tk/login` the analyser reports both
the homoglyph indicator and the suspicious-TLD indicator, and the risk
score is 63, at least 60. -/
theorem C4_amended :
    "Homoglyph brand impersonation detected" ∈ (analyseUrl fixedHomoglyphUrl).indicators ∧
    "Suspicious TLD (.tk)" ∈ (analyseUrl fixedHomoglyphUrl).indicators ∧
    60 ≤ (analyseUrl fixedHomoglyphUrl).riskScore ∧
    (analyseUrl fixedHomoglyphUrl).riskScore = 63 := by
  refine ⟨?_, ?_, ?_, risk_fixedHomoglyphUrl⟩
  · rw [inds_fixedHomoglyphUrl]
    decide
  · rw [inds_fixedHomoglyphUrl]
    decide
  · rw [risk_fixedHomoglyphUrl]
    norm_num

/-- Claim C6: when URL parsing of the (possibly http-prefixed) input
fails, the extractor returns exactly the fallback record; on the concrete
unparseable input the structural fields are inert and the raw input is
kept as the domain. -/
theorem C6_fallback_on_parse_failure :
    (∀ s : String,
      parseUrl (if "http".data.isPrefixOf s.data then s else "http://" ++ s) = none →
      extractUrlFeatures s = buildFallbackFeatures s) ∧
    (extractUrlFeatures "not a url ??").hasIpAddress = false ∧
    (extractUrlFeatures "not a url ??").tld = "" ∧
    (extractUrlFeatures "not a url ??").domain = "not a url ??" := by
  refine ⟨?_, by decide, by decide, by decide⟩
  intro s h
  rw [extractUrlFeatures, h]

theorem C6_fallback_witness :
    parseUrl (if "http".data.isPrefixOf "not a url ??".data then "not a url ??"
              else "http://" ++ "not a url ??") = none ∧
    extractUrlFeatures "not a url ??" = buildFallbackFeatures "not a url ??" :=
  ⟨by decide, C6_fallback_on_parse_failure.1 "not a url ??" (by decide)⟩

/-- Claim C7: the risk score is exactly the capped sum of the fired rule
weights, taken in rule order, hence never exceeds 100; and the crafted URL
`cappedUrl` attains exactly 100. -/
theorem C7_score_is_capped_sum :
    (∀ url, (analyseUrl url).riskScore =
        min 100 ((scoreFeatures (extractUrlFeatures url)).map fun i => i.score).sum ∧
      (analyseUrl url).riskScore ≤ 100) ∧
    (analyseUrl cappedUrl).riskScore = 100 :=
  ⟨fun _ => ⟨rfl, min_le_left _ _⟩, risk_cappedUrl⟩

theorem splitChar_ne_nil (sep : Char) (l : List Char) : splitChar sep l ≠ [] := by
  cases l with
  | nil => simp [splitChar]
  | cons c cs =>
      simp only [splitChar]
      rcases h : splitChar sep cs with _ | ⟨w, ws⟩
      · simp
      · split_ifs <;> simp

theorem joinChar_splitChar (sep : Char) (l : List Char) :
    joinChar sep (splitChar sep l) = l := by
  induction l with
  | nil => rfl
  | cons c cs ih =>
      simp only [splitChar]
      rcases h : splitChar sep cs with _ | ⟨w, ws⟩
      · exact absurd h (splitChar_ne_nil sep cs)
      · rw [h] at ih
        show joinChar sep (if c = sep then [] :: w :: ws else (c :: w) :: ws) = c :: cs
        by_cases hc : c = sep
        · rw [if_pos hc]
          subst hc
          cases ws <;> simp_all [joinChar]
        · rw [if_neg hc]
          cases ws <;> simp_all [joinChar]

theorem joinSep_map_mk (sep : Char) (ws : List (List Char)) :
    joinSep (String.mk [sep]) (ws.map String.mk) = String.mk (joinChar sep ws) := by
  induction ws with
  | nil => rfl
  | cons w ws ih =>
      cases ws with
      | nil => rfl
      | cons w2 rest =>
          simp only [List.map_cons] at ih ⊢
          rw [joinSep, joinChar, ih]
          · show String.mk ((w ++ [sep]) ++ (joinChar sep (w2 :: rest))) = _
            rw [List.append_assoc]
            rfl
          · simp
          · simp

theorem domain_of_host_ne (h : String) (hne : h.data ≠ []) :
    joinSep "." ((splitOnChar '.' h).drop ((splitOnChar '.' h).length - 2)) ≠ "" := by
  have hws : splitChar '.' h.data ≠ [] := splitChar_ne_nil '.' h.data
  rw [splitOnChar, List.length_map, ← List.map_drop, show ("." : String) = String.mk ['.'] from rfl,
    joinSep_map_mk]
  intro hc
  have hdata : joinChar '.' ((splitChar '.' h.data).drop ((splitChar '.' h.data).length - 2))
      = [] := by
    have := congrArg String.data hc
    simpa using this
  rcases Nat.lt_or_ge (splitChar '.' h.data).length 3 with hlen | hlen
  · have h0 : (splitChar '.' h.data).length - 2 = 0 := by omega
    rw [h0, List.drop_zero, joinChar_splitChar] at hdata
    exact hne hdata
  · have h2 : ((splitChar '.' h.data).drop ((splitChar '.' h.data).length - 2)).length = 2 := by
      rw [List.length_drop]
      omega
    obtain ⟨a, b, hab⟩ := List.length_eq_two.mp h2
    rw [hab] at hdata
    cases a <;> simp [joinChar] at hdata

set_option maxHeartbeats 1000000 in
theorem parseUrl_prefixed_host_ne (s : String) (u : ParsedUrl)
    (h : parseUrl ("http://" ++ s) = some u) : u.hostname ≠ "" := by
  have hcontains : HOST_REQUIRED_SCHEMES.contains
      (String.mk (List.map Char.toLower
        (List.takeWhile (fun x => x != ':') ("http://" ++ s).data))) = true := rfl
  simp only [parseUrl] at h
  split at h
  · exact Option.noConfusion h
  split at h
  · exact Option.noConfusion h
  split at h
  · exact Option.noConfusion h
  split at h
  case _ rest2 =>
    split at h
    · exact Option.noConfusion h
    case _ host portDigits =>
      split at h
      · exact Option.noConfusion h
      split at h
      · exact Option.noConfusion h
      split at h
      · exact Option.noConfusion h
      obtain rfl := Option.some.inj h
      rename_i hempty _ _
      rw [hcontains, Bool.and_true] at hempty
      intro hc
      have hd := congrArg String.data hc
      simp only at hd
      rw [List.map_eq_nil_iff] at hd
      simp [hd] at hempty
  case _ =>
    exact Option.noConfusion h

theorem natDivQ_bounds (a b : ℕ) (h : a ≤ b) :
    0 ≤ ((a:ℚ)/(b:ℚ)) ∧ ((a:ℚ)/(b:ℚ)) ≤ 1 := by
  refine ⟨by positivity, ?_⟩
  rcases Nat.eq_zero_or_pos b with hb | hb
  · subst hb
    have ha : a = 0 := by omega
    subst ha
    norm_num
  · rw [div_le_one (by exact_mod_cast hb)]
    exact_mod_cast h

/-- Claim C8 counterexample: the domain field can be empty for the empty
input (fallback keeps the raw input) and also for the non-empty input
"httpx://", which starts with "http", is passed verbatim to the URL
constructor, and parses under the non-special scheme httpx with an empty
host, so the last-two-labels join is empty. -/
theorem C8_counterexample :
    (extractUrlFeatures "").domain = "" ∧
    ("httpx://" : String) ≠ "" ∧
    (extractUrlFeatures "httpx://").domain = "" :=
  ⟨by decide, by decide, by decide⟩

/-- Claim C8 amended: both ratios always lie in [0,1]; the domain equals
the raw input when parsing fails, so it is non-empty for every non-empty
input that does not start with "http" (such inputs are prefixed with
"http://" and hence parse, if at all, under the special scheme http, whose
host is non-empty); whenever parsing succeeds with a non-empty hostname,
the domain is non-empty.  (An input starting with "http" may parse under a
non-special scheme with an empty host, and then the domain is empty.) -/
theorem C8_amended : ∀ s : String,
    (0 ≤ (extractUrlFeatures s).digitRatio ∧ (extractUrlFeatures s).digitRatio ≤ 1) ∧
    (0 ≤ (extractUrlFeatures s).specialCharRatio ∧ (extractUrlFeatures s).specialCharRatio ≤ 1) ∧
    (s ≠ "" → "http".data.isPrefixOf s.data = false → (extractUrlFeatures s).domain ≠ "") ∧
    (∀ u, parseUrl (if "http".data.isPrefixOf s.data then s else "http://" ++ s) = some u →
      u.hostname ≠ "" → (extractUrlFeatures s).domain ≠ "") := by
  intro s
  rcases hp : parseUrl (if "http".data.isPrefixOf s.data then s else "http://" ++ s)
    with _ | u
  · rw [extractUrlFeatures, hp]
    exact ⟨⟨le_refl 0, by show (0:ℚ) ≤ 1; norm_num⟩,
      ⟨le_refl 0, by show (0:ℚ) ≤ 1; norm_num⟩, fun h _ => h,
      fun u hu => Option.noConfusion hu⟩
  · have hlen : s.length = s.data.length := rfl
    rw [extractUrlFeatures, hp]
    refine ⟨?_, ?_, ?_, ?_⟩
    · exact natDivQ_bounds _ _
        (le_trans (List.countP_le_length _) (le_of_eq hlen.symm))
    · exact natDivQ_bounds _ _
        (le_trans (List.countP_le_length _) (le_of_eq hlen.symm))
    · intro _ hpre
      rw [if_neg (by simp [hpre])] at hp
      have hhost := parseUrl_prefixed_host_ne s u hp
      refine domain_of_host_ne (toLowerStr u.hostname) ?_
      intro hc
      apply hhost
      simp only [toLowerStr, List.map_eq_nil_iff] at hc
      apply String.ext
      rw [hc]
    · intro u2 hu2 hhost
      obtain rfl := Option.some.inj hu2
      refine domain_of_host_ne (toLowerStr u.hostname) ?_
      intro hc
      apply hhost
      simp only [toLowerStr, List.map_eq_nil_iff] at hc
      apply String.ext
      rw [hc]

theorem C8_amended_witness :
    (("x" : String) ≠ "" ∧ "http".data.isPrefixOf "x".data = false ∧
      (extractUrlFeatures "x").domain ≠ "") ∧
    (parseUrl (if "http".data.isPrefixOf "x".data then "x" else "http://" ++ "x") =
        some { protocol := "http:", hostname := "x", port := "", pathname := "/",
               search := "", hash := "" } ∧
      ({ protocol := "http:", hostname := "x", port := "", pathname := "/",
         search := "", hash := "" } : ParsedUrl).hostname ≠ "" ∧
      (extractUrlFeatures "x").domain ≠ "") :=
  ⟨⟨by decide, by decide, (C8_amended "x").2.2.1 (by decide) (by decide)⟩,
   ⟨by decide, by decide,
    (C8_amended "x").2.2.2
      { protocol := "http:", hostname := "x", port := "", pathname := "/",
        search := "", hash := "" }
      (by decide) (by decide)⟩⟩

/-- Claim C9 counterexample: the source divides the per-code-point counts
by the UTF-16 length of the string, so a string consisting of a single
astral character has probability 1/2 and entropy 1/2, violating both the
repeated-single-character-is-zero clause and the bound by the log of the
alphabet size (log2 of 1 is 0). -/
theorem C9_counterexample :
    shannonEntropy (String.mk (List.replicate 1 '😀')) = 1/2 ∧
    Real.logb 2 ((String.mk (List.replicate 1 '😀')).data.dedup.length) = 0 ∧
    ¬ (shannonEntropy (String.mk (List.replicate 1 '😀')) ≤
        Real.logb 2 ((String.mk (List.replicate 1 '😀')).data.dedup.length)) ∧
    shannonEntropy (String.mk (List.replicate 1 '😀')) ≠ 0 := by
  have hL : utf16Length (String.mk (List.replicate 1 '😀')) = 2 := by decide
  have hd1 : (String.mk (List.replicate 1 '😀')).data.dedup.length = 1 := by decide
  have hent : shannonEntropy (String.mk (List.replicate 1 '😀')) = 1/2 := by
    rw [shannonEntropy, if_neg (by omega)]
    show ((List.replicate 1 '😀').dedup.map _).sum = 1/2
    rw [List.replicate_dedup (by norm_num)]
    simp only [List.map_cons, List.map_nil, List.sum_cons, List.sum_nil, hL, add_zero]
    have hcnt : ((String.mk (List.replicate 1 '😀')).data.count '😀' : ℝ) = 1 := by
      have h1 : (String.mk (List.replicate 1 '😀')).data.count '😀' = 1 := by decide
      exact_mod_cast h1
    rw [hcnt]
    have h2 : ((2:ℕ) : ℝ) = 2 := by norm_num
    rw [h2]
    have hlogb : Real.logb 2 ((1:ℝ)/2) = -1 := by
      rw [one_div, Real.logb, Real.log_inv, neg_div,
        div_self (ne_of_gt (Real.log_pos (by norm_num)))]
    rw [hlogb]
    norm_num
  have hlog1 : Real.logb 2 ((String.mk (List.replicate 1 '😀')).data.dedup.length) = 0 := by
    rw [hd1]
    simp
  refine ⟨hent, hlog1, ?_, ?_⟩
  · rw [hent, hlog1]
    norm_num
  · rw [hent]
    norm_num

/-- Claim C9 amended: Shannon entropy is always non-negative; for every
non-empty string of Basic-Multilingual-Plane characters (one UTF-16 unit
each, so that the UTF-16 length equals the code-point count) the entropy
is at most the log of the number of distinct characters, and a repeated
BMP character gives entropy 0; the empty string gives 0.  (On astral
characters the count/UTF-16-length mismatch breaks the bound, as the
counterexample shows.) -/
theorem C9_amended :
    (∀ s : String, 0 ≤ shannonEntropy s) ∧
    (∀ s : String, s ≠ "" → (∀ c ∈ s.data, c.toNat < 65536) →
      shannonEntropy s ≤ Real.logb 2 (s.data.dedup.length)) ∧
    (∀ (c : Char) (n : ℕ), c.toNat < 65536 → 0 < n →
      shannonEntropy (String.mk (List.replicate n c)) = 0) ∧
    shannonEntropy "" = 0 :=
  ⟨shannonEntropy_nonneg,
   fun s _ hbmp => shannonEntropy_le_logb s hbmp,
   fun c n hc hn => shannonEntropy_replicate c n hc hn,
   shannonEntropy_empty⟩

theorem C9_amended_witness :
    (("ab" : String) ≠ "" ∧ (∀ c ∈ ("ab" : String).data, c.toNat < 65536) ∧
      shannonEntropy "ab" ≤ Real.logb 2 ("ab".data.dedup.length)) ∧
    ('x'.toNat < 65536 ∧ 0 < 3 ∧ shannonEntropy (String.mk (List.replicate 3 'x')) = 0) :=
  ⟨⟨by decide, by decide, C9_amended.2.1 "ab" (by decide) (by decide)⟩,
   ⟨by decide, by norm_num, C9_amended.2.2.1 'x' 3 (by decide) (by norm_num)⟩⟩

/-! ### The brand-loop invariant -/

/-- Invariant of the brand loop state: the homoglyph score never exceeds
the brand-similarity score, and it is either 0 or the similarity (greater
than 0.8) of some brand to the normalised label, recorded only when
normalisation changed the label. -/
def brandInv (normal lbl : String) (st : ℚ × ℚ) : Prop :=
  st.2 ≤ st.1 ∧
  (st.2 = 0 ∨
    (0.8 < st.2 ∧ lbl ≠ normal ∧ ∃ b ∈ WELL_KNOWN_BRANDS, 0.8 < brandSim normal b))

theorem brandStep_inv (normal lbl : String) (st : ℚ × ℚ) (brand : String)
    (hb : brand ∈ WELL_KNOWN_BRANDS) (h : brandInv normal lbl st) :
    brandInv normal lbl (brandStep normal lbl st brand) := by
  obtain ⟨h1, h2⟩ := h
  have hfst : (brandStep normal lbl st brand).1 =
      if st.1 < brandSim normal brand then brandSim normal brand else st.1 := rfl
  have hsnd : (brandStep normal lbl st brand).2 =
      if lbl ≠ normal ∧ 0.8 < brandSim normal brand then max st.2 (brandSim normal brand)
      else st.2 := rfl
  constructor
  · rw [hsnd, hfst]
    split_ifs <;> simp_all [max_le_iff, le_max_iff] <;> linarith
  · rw [hsnd]
    split_ifs with hcond
    · exact Or.inr ⟨lt_max_of_lt_right hcond.2, hcond.1, brand, hb, hcond.2⟩
    · exact h2

theorem foldl_brandInv (normal lbl : String) :
    ∀ (l : List String) (st : ℚ × ℚ),
      (∀ b ∈ l, b ∈ WELL_KNOWN_BRANDS) → brandInv normal lbl st →
      brandInv normal lbl (l.foldl (brandStep normal lbl) st)
  | [], _, _, h => h
  | b :: bs, st, hsub, h =>
      foldl_brandInv normal lbl bs (brandStep normal lbl st b)
        (fun x hx => hsub x (List.mem_cons_of_mem b hx))
        (brandStep_inv normal lbl st b (hsub b (List.mem_cons_self b bs)) h)

/-- Claim C10: the homoglyph score never exceeds the brand-similarity
score, and it is either 0 or strictly greater than 0.8; it is non-zero
only when homoglyph normalisation changed the first domain label and the
normalised label is more than 0.8 similar to some known brand. -/
theorem C10_homoglyph_invariant : ∀ s : String,
    ((extractUrlFeatures s).homoglyphScore ≤ (extractUrlFeatures s).brandSimilarityScore) ∧
    ((extractUrlFeatures s).homoglyphScore = 0 ∨
      0.8 < (extractUrlFeatures s).homoglyphScore) ∧
    ((extractUrlFeatures s).homoglyphScore ≠ 0 →
      homoglyphNormalise ((splitOnChar '.' (extractUrlFeatures s).domain).headD "") ≠
        (splitOnChar '.' (extractUrlFeatures s).domain).headD "" ∧
      ∃ b ∈ WELL_KNOWN_BRANDS,
        0.8 < brandSim
          (homoglyphNormalise ((splitOnChar '.' (extractUrlFeatures s).domain).headD "")) b) := by
  intro s
  rcases hp : parseUrl (if "http".data.isPrefixOf s.data then s else "http://" ++ s)
    with _ | u
  · rw [extractUrlFeatures, hp]
    exact ⟨le_refl 0, Or.inl rfl, fun hc => absurd rfl hc⟩
  · rw [extractUrlFeatures, hp]
    have hinv := foldl_brandInv
      (homoglyphNormalise ((splitOnChar '.'
        (joinSep "." ((splitOnChar '.' (toLowerStr u.hostname)).drop
          ((splitOnChar '.' (toLowerStr u.hostname)).length - 2)))).headD ""))
      ((splitOnChar '.'
        (joinSep "." ((splitOnChar '.' (toLowerStr u.hostname)).drop
          ((splitOnChar '.' (toLowerStr u.hostname)).length - 2)))).headD "")
      WELL_KNOWN_BRANDS (0, 0) (fun _ hb => hb) ⟨le_refl 0, Or.inl rfl⟩
  
    refine ⟨hinv.1, ?_, ?_⟩
    · rcases hinv.2 with h0 | hgt
      · exact Or.inl h0
      · exact Or.inr hgt.1
    · intro hne
      rcases hinv.2 with h0 | hgt
      · exact absurd h0 hne
      · exact ⟨Ne.symm hgt.2.1, hgt.2.2⟩

theorem C10_homoglyph_invariant_witness :
    (extractUrlFeatures fixedHomoglyphUrl).homoglyphScore ≠ 0 ∧
    (homoglyphNormalise
        ((splitOnChar '.' (extractUrlFeatures fixedHomoglyphUrl).domain).headD "") ≠
      (splitOnChar '.' (extractUrlFeatures fixedHomoglyphUrl).domain).headD "" ∧
      ∃ b ∈ WELL_KNOWN_BRANDS,
        0.8 < brandSim
          (homoglyphNormalise
            ((splitOnChar '.' (extractUrlFeatures fixedHomoglyphUrl).domain).headD "")) b) := by
  have hval : (extractUrlFeatures fixedHomoglyphUrl).homoglyphScore =
      (brandScan "paypai" "paypa1").2 := rfl
  rw [brandScan_paypai] at hval
  have hne : (extractUrlFeatures fixedHomoglyphUrl).homoglyphScore ≠ 0 := by
    rw [hval]
    norm_num
  exact ⟨hne, (C10_homoglyph_invariant fixedHomoglyphUrl).2.2 hne⟩

end Guardian
